import Mathlib

/-!
# StatefulSet synthesis of the MySQL operator

A shallow embedding of `pkg/mysqlcluster/statefullset.go`.

* Go structs are Lean structures whose default field values are the Go zero values.
* Go slices are lists; an indexed read or write outside the slice is a run-time
  panic, modelled by `none`.
* Go maps `map[string]string` are association lists, read and written through
  `StrMap.get` and `StrMap.set`; a nil map and an empty map are both `[]`.
* Fields of the Kubernetes API types which the file never reads or writes are
  carried along as `Raw` payloads.
* Package-level names which live in other files of the package (port constants,
  `ensureProbe`, `ensureContainerPorts`, status strings) are the fields of `Pkg`.
-/

set_option linter.dupNamespace false

namespace MysqlCluster

/-! ## Kubernetes API types -/

/-- Payload of an API field that the synthesizer copies but never inspects. -/
structure Raw where
  repr : String := ""
deriving DecidableEq, Repr

/-- Go `map[string]string`. -/
abbrev StrMap := List (String × String)

/-- Map read `m[k]`, with `none` for an absent key. -/
def StrMap.get : StrMap → String → Option String
  | [], _ => none
  | (k', v') :: t, k => if k' = k then some v' else StrMap.get t k

/-- Map write `m[k] = v`: replaces the binding of `k` or adds one. -/
def StrMap.set : StrMap → String → String → StrMap
  | [], k, v => [(k, v)]
  | (k', v') :: t, k, v => if k' = k then (k, v) :: t else (k', v') :: StrMap.set t k v

/-- Go `len(s)` of a string: its length in bytes. -/
def strLen (s : String) : Nat := s.utf8ByteSize

/-- Slice read `s[i]`; `none` is the index-out-of-range panic. -/
def sliceGet {α : Type} (s : List α) (i : Nat) : Option α := s.get? i

/-- Slice write `s[i] = v`; `none` is the index-out-of-range panic. -/
def sliceSet {α : Type} (s : List α) (i : Nat) (v : α) : Option (List α) :=
  if i < s.length then some (s.set i v) else none

/-- Go `make([]T, n)`: a slice of `n` zero values. -/
def makeSlice {α : Type} (n : Nat) (zero : α) : List α := List.replicate n zero

/-- Type `intstr.IntOrString`. -/
inductive IntOrString where
  | int (v : Int)
  | str (v : String)
deriving DecidableEq, Repr

/-- Type `core.ExecAction`. -/
structure ExecAction where
  Command : List String := []
deriving DecidableEq, Repr

/-- Type `core.HTTPGetAction`. -/
structure HTTPGetAction where
  Path : String := ""
  Port : IntOrString := IntOrString.int 0
  Host : String := ""
  Scheme : String := ""
  HTTPHeaders : Raw := {}
deriving DecidableEq, Repr

/-- Type `core.Handler`. -/
structure Handler where
  Exec : Option ExecAction := none
  HTTPGet : Option HTTPGetAction := none
  TCPSocket : Option Raw := none
deriving DecidableEq, Repr

/-- Type `core.Probe`. -/
structure Probe where
  Handler : Handler := {}
  InitialDelaySeconds : Int := 0
  TimeoutSeconds : Int := 0
  PeriodSeconds : Int := 0
  SuccessThreshold : Int := 0
  FailureThreshold : Int := 0
deriving DecidableEq, Repr

/-- Type `core.ContainerPort`. -/
structure ContainerPort where
  Name : String := ""
  HostPort : Int := 0
  ContainerPort : Int := 0
  Protocol : String := ""
  HostIP : String := ""
deriving DecidableEq, Repr

/-- Type `core.SecretEnvSource` with its embedded `LocalObjectReference`. -/
structure SecretEnvSource where
  Name : String := ""
  Optional : Option Bool := none
deriving DecidableEq, Repr

/-- Type `core.EnvFromSource`. -/
structure EnvFromSource where
  Prefix : String := ""
  ConfigMapRef : Option Raw := none
  SecretRef : Option SecretEnvSource := none
deriving DecidableEq, Repr

/-- Type `core.VolumeMount`. -/
structure VolumeMount where
  Name : String := ""
  ReadOnly : Bool := false
  MountPath : String := ""
  SubPath : String := ""
  MountPropagation : Option String := none
deriving DecidableEq, Repr

/-- Type `core.Container`. -/
structure Container where
  Name : String := ""
  Image : String := ""
  Command : List String := []
  Args : List String := []
  WorkingDir : String := ""
  Ports : List ContainerPort := []
  EnvFrom : List EnvFromSource := []
  Env : Raw := {}
  Resources : Raw := {}
  VolumeMounts : List VolumeMount := []
  VolumeDevices : Raw := {}
  LivenessProbe : Option Probe := none
  ReadinessProbe : Option Probe := none
  Lifecycle : Option Raw := none
  TerminationMessagePath : String := ""
  TerminationMessagePolicy : String := ""
  ImagePullPolicy : String := ""
  SecurityContext : Option Raw := none
  Stdin : Bool := false
  StdinOnce : Bool := false
  TTY : Bool := false
deriving DecidableEq, Repr

/-- Type `core.ConfigMapVolumeSource`. -/
structure ConfigMapVolumeSource where
  Name : String := ""
  Items : Raw := {}
  DefaultMode : Option Int := none
  Optional : Option Bool := none
deriving DecidableEq, Repr

/-- Type `core.PersistentVolumeClaimVolumeSource`. -/
structure PersistentVolumeClaimVolumeSource where
  ClaimName : String := ""
  ReadOnly : Bool := false
deriving DecidableEq, Repr

/-- Type `core.SecretVolumeSource`. -/
structure SecretVolumeSource where
  SecretName : String := ""
  Items : Raw := {}
  DefaultMode : Option Int := none
  Optional : Option Bool := none
deriving DecidableEq, Repr

/-- Type `core.VolumeSource`; `Other` stands for the volume kinds never built here. -/
structure VolumeSource where
  EmptyDir : Option Raw := none
  ConfigMap : Option ConfigMapVolumeSource := none
  PersistentVolumeClaim : Option PersistentVolumeClaimVolumeSource := none
  Secret : Option SecretVolumeSource := none
  Other : Option Raw := none
deriving DecidableEq, Repr

/-- Type `core.Volume`. -/
structure Volume where
  Name : String := ""
  VolumeSource : VolumeSource := {}
deriving DecidableEq, Repr

/-- Type `metav1.ObjectMeta`; `Rest` is every field other than the five named ones. -/
structure ObjectMeta where
  Name : String := ""
  Namespace : String := ""
  Labels : StrMap := []
  Annotations : StrMap := []
  OwnerReferences : List Raw := []
  Rest : Raw := {}
deriving DecidableEq, Repr

/-- Type `core.PersistentVolumeClaimSpec`. -/
structure PersistentVolumeClaimSpec where
  AccessModes : List String := []
  Selector : Option Raw := none
  Resources : Raw := {}
  VolumeName : String := ""
  StorageClassName : Option String := none
  VolumeMode : Option String := none
deriving DecidableEq, Repr

/-- Type `core.PersistentVolumeClaim`. -/
structure PersistentVolumeClaim where
  ObjectMeta : ObjectMeta := {}
  Spec : PersistentVolumeClaimSpec := {}
  Status : Raw := {}
deriving DecidableEq, Repr

/-- Type `core.PodSpec`; `Rest` is every field the synthesizer leaves alone. -/
structure PodSpec where
  Volumes : List Volume := []
  InitContainers : List Container := []
  Containers : List Container := []
  NodeSelector : StrMap := []
  Affinity : Option Raw := none
  ImagePullSecrets : List String := []
  Rest : Raw := {}
deriving DecidableEq, Repr

/-- Type `core.PodTemplateSpec`. -/
structure PodTemplateSpec where
  ObjectMeta : ObjectMeta := {}
  Spec : PodSpec := {}
deriving DecidableEq, Repr

/-- Type `metav1.LabelSelector`. -/
structure LabelSelector where
  MatchLabels : StrMap := []
  MatchExpressions : Raw := {}
deriving DecidableEq, Repr

/-- Type `apps.StatefulSetSpec`; `Rest` is every field the synthesizer leaves alone. -/
structure StatefulSetSpec where
  Replicas : Option Int := none
  Selector : Option LabelSelector := none
  Template : PodTemplateSpec := {}
  VolumeClaimTemplates : List PersistentVolumeClaim := []
  ServiceName : String := ""
  Rest : Raw := {}
deriving DecidableEq, Repr

/-- Type `apps.StatefulSetStatus`. -/
structure StatefulSetStatus where
  ObservedGeneration : Int := 0
  Replicas : Int := 0
  ReadyReplicas : Int := 0
  CurrentReplicas : Int := 0
  UpdatedReplicas : Int := 0
  Conditions : List Raw := []
  Rest : Raw := {}
deriving DecidableEq, Repr

/-- Type `apps.StatefulSet`. -/
structure StatefulSet where
  ObjectMeta : ObjectMeta := {}
  Spec : StatefulSetSpec := {}
  Status : StatefulSetStatus := {}
deriving DecidableEq, Repr

/-! ## The cluster resource and the factory -/

/-- Pod settings of the cluster resource, `api.PodSpec`. -/
structure ClusterPodSpec where
  ImagePullPolicy : String := ""
  ImagePullSecrets : List String := []
  Labels : StrMap := []
  Annotations : StrMap := []
  Resources : Raw := {}
  Affinity : Raw := {}
  NodeSelector : StrMap := []
deriving DecidableEq, Repr

/-- Storage settings of the cluster resource, `api.VolumeSpec`. -/
structure ClusterVolumeSpec where
  PersistentVolumeClaimSpec : PersistentVolumeClaimSpec := {}
deriving DecidableEq, Repr

/-- The cluster specification, `api.ClusterSpec`.  The four `Get...` fields hold the
values returned by the accessor methods of the same names. -/
structure ClusterSpec where
  Replicas : Int := 0
  SecretName : String := ""
  InitBucketSecretName : String := ""
  PodSpec : ClusterPodSpec := {}
  VolumeSpec : ClusterVolumeSpec := {}
  GetHelperImage : String := ""
  GetMysqlImage : String := ""
  GetMetricsExporterImage : String := ""
  GetOrcTopologySecret : String := ""
deriving DecidableEq, Repr

/-- The status block of the cluster resource, `api.ClusterStatus`. -/
structure ClusterStatus where
  ReadyNodes : Int := 0
  Conditions : List Raw := []
deriving DecidableEq, Repr

/-- Argument of `GetNameForResource`. -/
inductive ResourceName where
  | StatefulSet
  | HeadlessSVC
  | ConfigMap
  | EnvSecret
deriving DecidableEq, Repr

/-- The cluster resource, `api.MysqlCluster`. -/
structure MysqlCluster where
  Spec : ClusterSpec := {}
  Status : ClusterStatus := {}
  GetNameForResource : ResourceName → String

/-- The receiver `cFactory` of every method of the file. -/
structure cFactory where
  cluster : MysqlCluster
  namespace_ : String
  configHash : String
  getLabels : StrMap → StrMap
  getOwnerReferences : List Raw

/-- A Go `error` value; the nil error is `none : Option GoError`. -/
structure GoError where
  msg : String
deriving DecidableEq, Repr

/-- Package-level names used by the file and declared elsewhere in the package. -/
structure Pkg where
  MysqlPortName : String
  MysqlPort : Int
  HelperXtrabackupPortName : String
  HelperXtrabackupPort : Int
  HelperProbePath : String
  HelperProbePort : Int
  ExporterPortName : String
  ExporterPort : Int
  ExporterPath : String
  ExporterTargetPort : IntOrString
  OrcTopologyDir : String
  ClusterConditionReady : String
  statusUpToDate : String
  statusFailed : String
  getStatusFromKVerb : String → String
  ensureContainerPorts : List ContainerPort → ContainerPort → List ContainerPort
  ensureProbe : Option Probe → Int → Int → Int → Handler → Option Probe
  UpdateStatusCondition : ClusterStatus → String → String → String → String → ClusterStatus

/-! ## Constants of the file -/

def confVolumeName : String := "conf"
def ConfVolumeMountPath : String := "/etc/mysql"
def ConfDPath : String := "/etc/mysql/conf.d"
def confMapVolumeName : String := "config-map"
def ConfMapVolumeMountPath : String := "/mnt/conf"
def dataVolumeName : String := "data"
def DataVolumeMountPath : String := "/var/lib/mysql"
def orcSecretVolumeName : String := "orc-topology-secret"

def containerInitName : String := "init-mysql"
def containerCloneName : String := "clone-mysql"
def containerHelperName : String := "helper"
def containerMysqlName : String := "mysql"
def containerExporterName : String := "metrics-exporter"

/-- Constant `core.ConditionTrue`. -/
def ConditionTrue : String := "True"
/-- Constant `core.ConditionFalse`. -/
def ConditionFalse : String := "False"
/-- Constant `core.URISchemeHTTP`. -/
def URISchemeHTTP : String := "HTTP"

/-! ## The functions of `statefullset.go` -/

/-- Function `envFromSecret`. -/
def envFromSecret (name : String) : EnvFromSource :=
  { SecretRef := some { Name := name } }

/-- Function `ensureVolume`. -/
def ensureVolume (inp : Volume) (name : String) (source : VolumeSource) : Volume :=
  { inp with Name := name, VolumeSource := source }

/-- Method `getEnvSourcesFor`. -/
def getEnvSourcesFor (f : cFactory) (name : String) : List EnvFromSource :=
  let ss := [envFromSecret (f.cluster.GetNameForResource ResourceName.EnvSecret)]
  if name = containerHelperName then ss
  else if name = containerCloneName then
    if strLen f.cluster.Spec.InitBucketSecretName ≠ 0 then
      ss ++ [envFromSecret f.cluster.Spec.InitBucketSecretName]
    else ss
  else if name = containerMysqlName then
    ss ++ [{ Prefix := "MYSQL_", SecretRef := some { Name := f.cluster.Spec.SecretName } }]
  else if name = containerExporterName then ss
  else ss

/-- Method `getVolumeMountsFor`. -/
def getVolumeMountsFor (P : Pkg) (f : cFactory) (name : String) : List VolumeMount :=
  let commonVolumeMounts : List VolumeMount :=
    [ { Name := confVolumeName, MountPath := ConfVolumeMountPath },
      { Name := dataVolumeName, MountPath := DataVolumeMountPath } ]
  let helperVolumeMounts :=
    if strLen f.cluster.Spec.GetOrcTopologySecret ≠ 0 then
      commonVolumeMounts ++ [{ Name := "orc-topology-secret", MountPath := P.OrcTopologyDir }]
    else commonVolumeMounts
  if name = containerInitName then
    [ { Name := confVolumeName, MountPath := ConfVolumeMountPath },
      { Name := confMapVolumeName, MountPath := ConfMapVolumeMountPath } ]
  else if name = containerCloneName then commonVolumeMounts
  else if name = containerMysqlName then commonVolumeMounts
  else if name = containerHelperName then helperVolumeMounts
  else []

/-- Method `ensureContainer`. -/
def ensureContainer (P : Pkg) (f : cFactory) (inp : Container) (name image : String)
    (args : List String) : Container :=
  { inp with
    Name := name
    Image := image
    ImagePullPolicy := f.cluster.Spec.PodSpec.ImagePullPolicy
    Args := args
    EnvFrom := getEnvSourcesFor f name
    VolumeMounts := getVolumeMountsFor P f name }

/-- Method `ensureInitContainersSpec`. -/
def ensureInitContainersSpec (P : Pkg) (f : cFactory) (inp : List Container) :
    Option (List Container) := do
  let inp := if inp.length = 0 then makeSlice 2 ({} : Container) else inp
  -- init container for configs
  let c0 ← sliceGet inp 0
  let inp ← sliceSet inp 0
    (ensureContainer P f c0 containerInitName f.cluster.Spec.GetHelperImage ["files-config"])
  -- clone container
  let c1 ← sliceGet inp 1
  let inp ← sliceSet inp 1
    (ensureContainer P f c1 containerCloneName f.cluster.Spec.GetHelperImage ["clone"])
  pure inp

/-- Method `ensureContainersSpec`. -/
def ensureContainersSpec (P : Pkg) (f : cFactory) (inp : List Container) :
    Option (List Container) := do
  let noContainers := 3
  let inp := if inp.length ≠ noContainers then makeSlice noContainers ({} : Container) else inp
  -- MYSQL container
  let c0 ← sliceGet inp 0
  let mysql := ensureContainer P f c0 containerMysqlName f.cluster.Spec.GetMysqlImage []
  let mysql := { mysql with
    Ports := P.ensureContainerPorts mysql.Ports
      { Name := P.MysqlPortName, ContainerPort := P.MysqlPort } }
  let mysql := { mysql with Resources := f.cluster.Spec.PodSpec.Resources }
  let mysql := { mysql with
    LivenessProbe := P.ensureProbe mysql.LivenessProbe 30 5 10
      { Exec := some { Command :=
          ["mysqladmin", "--defaults-file=/etc/mysql/client.cnf", "ping"] } } }
  let mysql := { mysql with
    ReadinessProbe := P.ensureProbe mysql.ReadinessProbe 5 5 10
      { Exec := some { Command :=
          ["mysql", "--defaults-file=/etc/mysql/client.cnf", "-e", "SELECT 1"] } } }
  let inp ← sliceSet inp 0 mysql
  -- HELPER container
  let c1 ← sliceGet inp 1
  let helper := ensureContainer P f c1 containerHelperName f.cluster.Spec.GetHelperImage
    ["config-and-serve"]
  let helper := { helper with
    Ports := P.ensureContainerPorts helper.Ports
      { Name := P.HelperXtrabackupPortName, ContainerPort := P.HelperXtrabackupPort } }
  let helper := { helper with
    ReadinessProbe := P.ensureProbe helper.ReadinessProbe 5 5 10
      { HTTPGet := some { Path := P.HelperProbePath,
                          Port := IntOrString.int P.HelperProbePort,
                          Scheme := URISchemeHTTP } } }
  let inp ← sliceSet inp 1 helper
  let c2 ← sliceGet inp 2
  let exporter := ensureContainer P f c2 containerExporterName
    f.cluster.Spec.GetMetricsExporterImage
    [ "--web.listen-address=0.0.0.0:" ++ toString P.ExporterPort,
      "--web.telemetry-path=" ++ P.ExporterPath ]
  let exporter := { exporter with
    Ports := P.ensureContainerPorts mysql.Ports
      { Name := P.ExporterPortName, ContainerPort := P.ExporterPort } }
  let exporter := { exporter with
    LivenessProbe := P.ensureProbe exporter.LivenessProbe 30 30 120
      { HTTPGet := some { Path := P.ExporterPath,
                          Port := P.ExporterTargetPort,
                          Scheme := URISchemeHTTP } } }
  let inp ← sliceSet inp 2 exporter
  pure inp

/-- Method `ensureVolumes`. -/
def ensureVolumes (f : cFactory) (inp : List Volume) : Option (List Volume) := do
  let orcVolume : Bool := strLen f.cluster.Spec.GetOrcTopologySecret ≠ 0
  let noVolumes := if orcVolume then 3 + 1 else 3
  let inp := if inp.length ≠ noVolumes then makeSlice noVolumes ({} : Volume) else inp
  let v0 ← sliceGet inp 0
  let inp ← sliceSet inp 0 (ensureVolume v0 confVolumeName { EmptyDir := some {} })
  let fileMode : Int := 420
  let v1 ← sliceGet inp 1
  let inp ← sliceSet inp 1 (ensureVolume v1 confMapVolumeName
    { ConfigMap := some { Name := f.cluster.GetNameForResource ResourceName.ConfigMap,
                          DefaultMode := some fileMode } })
  let v2 ← sliceGet inp 2
  let inp ← sliceSet inp 2 (ensureVolume v2 dataVolumeName
    { PersistentVolumeClaim := some { ClaimName := dataVolumeName } })
  if orcVolume then
    let v3 ← sliceGet inp 3
    let inp ← sliceSet inp 3 (ensureVolume v3 orcSecretVolumeName
      { Secret := some { SecretName := f.cluster.Spec.GetOrcTopologySecret,
                         DefaultMode := some fileMode } })
    pure inp
  else
    pure inp

/-- Method `ensureVolumeClaimTemplates`. -/
def ensureVolumeClaimTemplates (f : cFactory) (inp : List PersistentVolumeClaim) :
    Option (List PersistentVolumeClaim) := do
  let inp := if inp.length = 0 then makeSlice 1 ({} : PersistentVolumeClaim) else inp
  let data ← sliceGet inp 0
  let data := { data with ObjectMeta := { data.ObjectMeta with Name := dataVolumeName } }
  let data := { data with Spec := f.cluster.Spec.VolumeSpec.PersistentVolumeClaimSpec }
  let inp ← sliceSet inp 0 data
  pure inp

/-- The factory after a write through the map `f.cluster.Spec.PodSpec.Annotations`. -/
def cFactory.withPodAnnotations (f : cFactory) (a : StrMap) : cFactory :=
  { f with cluster := { f.cluster with Spec := { f.cluster.Spec with
      PodSpec := { f.cluster.Spec.PodSpec with Annotations := a } } } }

/-- Lines 91 to 97 of `ensureTemplate`: the annotation map of the returned template.
Line 91 takes the map held by the cluster spec, line 93 replaces it by a fresh map when
it is empty, lines 95 to 97 write the three managed keys. -/
def ensureTemplate.annotations (P : Pkg) (f : cFactory) : StrMap :=
  let ann : StrMap := f.cluster.Spec.PodSpec.Annotations
  let ann : StrMap := if ann.length = 0 then [] else ann
  let ann := ann.set "config_hash" f.configHash
  let ann := ann.set "prometheus.io/scrape" "true"
  let ann := ann.set "prometheus.io/port" (toString P.ExporterPort)
  ann

/-- Method `ensureTemplate`.  Line 91 makes `in.ObjectMeta.Annotations` the very map
held by the cluster spec; unless that map is empty (then line 93 makes a fresh one) the
three writes of lines 95 to 97 therefore also land in the cluster spec, which is why
the factory is returned next to the template. -/
def ensureTemplate (P : Pkg) (f : cFactory) (inp : PodTemplateSpec) :
    Option (PodTemplateSpec × cFactory) := do
  let labels := f.getLabels f.cluster.Spec.PodSpec.Labels
  let ann := ensureTemplate.annotations P f
  let f := if f.cluster.Spec.PodSpec.Annotations.length = 0 then f
           else f.withPodAnnotations ann
  let initContainers ← ensureInitContainersSpec P f inp.Spec.InitContainers
  let containers ← ensureContainersSpec P f inp.Spec.Containers
  let volumes ← ensureVolumes f inp.Spec.Volumes
  pure ({ inp with
    ObjectMeta := { inp.ObjectMeta with Labels := labels, Annotations := ann }
    Spec := { inp.Spec with
      InitContainers := initContainers
      Containers := containers
      Volumes := volumes
      Affinity := some f.cluster.Spec.PodSpec.Affinity
      NodeSelector := f.cluster.Spec.PodSpec.NodeSelector
      ImagePullSecrets := f.cluster.Spec.PodSpec.ImagePullSecrets } }, f)

/-- The factory after a write to `f.cluster.Status`. -/
def cFactory.withStatus (f : cFactory) (s : ClusterStatus) : cFactory :=
  { f with cluster := { f.cluster with Status := s } }

/-- Lines 57 to 65 of `syncStatefulSet`: the readiness condition and the ready-node
count written to the cluster status from the status of the object. -/
def syncStatefulSet.evalStatus (P : Pkg) (f : cFactory) (inp : StatefulSet) : cFactory :=
  let status :=
    if inp.Status.ReadyReplicas = inp.Status.Replicas then
      P.UpdateStatusCondition f.cluster.Status P.ClusterConditionReady
        ConditionTrue "statefulset ready" "Cluster is ready."
    else
      P.UpdateStatusCondition f.cluster.Status P.ClusterConditionReady
        ConditionFalse "statefulset not ready" "Cluster is not ready."
  f.withStatus { status with ReadyNodes := inp.Status.ReadyReplicas }

/-- The function literal of lines 56 to 77 which `syncStatefulSet` hands to
`CreateOrPatchStatefulSet`. -/
def syncStatefulSet.mutate (P : Pkg) (f : cFactory) (inp : StatefulSet) :
    Option (StatefulSet × cFactory) := do
  let f := syncStatefulSet.evalStatus P f inp
  let spec := { inp.Spec with
    Replicas := some f.cluster.Spec.Replicas
    Selector := some { MatchLabels := f.getLabels [] }
    ServiceName := f.cluster.GetNameForResource ResourceName.HeadlessSVC }
  let (template, f) ← ensureTemplate P f spec.Template
  let claims ← ensureVolumeClaimTemplates f spec.VolumeClaimTemplates
  pure ({ inp with
    Spec := { spec with Template := template, VolumeClaimTemplates := claims } }, f)

/-- What `kapps.CreateOrPatchStatefulSet` returns: the object, the verb and the error. -/
structure PatchOutcome where
  obj : Option StatefulSet
  act : String
  err : Option GoError

/-- The mutation function handed to the create-or-patch primitive. -/
abbrev Transform := StatefulSet → cFactory → Option (StatefulSet × cFactory)

/-- The external primitive `kapps.CreateOrPatchStatefulSet`; `none` is a panic. -/
abbrev CreateOrPatch := ObjectMeta → Transform → cFactory → Option (PatchOutcome × cFactory)

/-- Lines 48 to 53 of `syncStatefulSet`: the identity of the object. -/
def syncStatefulSet.objMeta (f : cFactory) : ObjectMeta :=
  { Name := f.cluster.GetNameForResource ResourceName.StatefulSet
    Labels := f.getLabels []
    OwnerReferences := f.getOwnerReferences
    Namespace := f.namespace_ }

/-- Method `syncStatefulSet`: returns `(state, err)` and the factory. -/
def syncStatefulSet (P : Pkg) (createOrPatch : CreateOrPatch) (f : cFactory) :
    Option ((String × Option GoError) × cFactory) := do
  let _state := P.statusUpToDate
  let (r, f) ← createOrPatch (syncStatefulSet.objMeta f)
    (fun inp g => syncStatefulSet.mutate P g inp) f
  if r.err ≠ none then
    pure ((P.statusFailed, r.err), f)
  else
    pure ((P.getStatusFromKVerb r.act, r.err), f)

/-! ## Sample values -/

/-- A package environment with the usual port numbers; `ensureContainerPorts` keeps a
non-empty base and `ensureProbe` overwrites the timings and the handler. -/
def samplePkg : Pkg where
  MysqlPortName := "mysql"
  MysqlPort := 3306
  HelperXtrabackupPortName := "xtrabackup"
  HelperXtrabackupPort := 3307
  HelperProbePath := "/health"
  HelperProbePort := 8001
  ExporterPortName := "prometheus"
  ExporterPort := 9104
  ExporterPath := "/metrics"
  ExporterTargetPort := IntOrString.int 9104
  OrcTopologyDir := "/var/run/orc-topology"
  ClusterConditionReady := "Ready"
  statusUpToDate := "up-to-date"
  statusFailed := "failed"
  getStatusFromKVerb := fun act => if act = "unchanged" then "up-to-date" else act
  ensureContainerPorts := fun base port => if base.length = 0 then [port] else base
  ensureProbe := fun base ids ts ps h =>
    let p : Probe := base.getD {}
    some { p with InitialDelaySeconds := ids, TimeoutSeconds := ts, PeriodSeconds := ps,
                  Handler := h }
  UpdateStatusCondition := fun st ty status reason message =>
    { st with Conditions := [⟨ty ++ "=" ++ status ++ ": " ++ reason ++ ": " ++ message⟩] }

/-- A cluster of five replicas without pod annotations or topology secret. -/
def sampleFactory : cFactory where
  cluster :=
    { Spec := { Replicas := 5, SecretName := "db-creds", GetHelperImage := "helper:1",
                GetMysqlImage := "percona:5.7", GetMetricsExporterImage := "exporter:1" }
      GetNameForResource := fun r => match r with
        | ResourceName.StatefulSet => "db-mysql"
        | ResourceName.HeadlessSVC => "db-mysql-nodes"
        | ResourceName.ConfigMap => "db-mysql"
        | ResourceName.EnvSecret => "db-mysql-env" }
  namespace_ := "default"
  configHash := "abc123"
  getLabels := fun extra => ("app", "mysql") :: extra
  getOwnerReferences := []

/-- The sample cluster with pod annotations and an orchestrator-topology secret. -/
def sampleOrcFactory : cFactory :=
  { sampleFactory with
    cluster := { sampleFactory.cluster with
      Spec := { sampleFactory.cluster.Spec with
        GetOrcTopologySecret := "orc-creds"
        PodSpec := { Annotations := [("team", "db")] } } } }

/-- The sample cluster whose pod annotations already hold stale managed keys. -/
def sampleStaleFactory : cFactory :=
  sampleFactory.withPodAnnotations [("prometheus.io/port", "1"), ("config_hash", "old")]

/-- An existing pod template with annotations of its own and no containers yet. -/
def sampleStaleTemplate : PodTemplateSpec :=
  { ObjectMeta := { Annotations :=
      [("owner", "team-a"), ("config_hash", "older"), ("prometheus.io/scrape", "false")] } }

/-- A live object with three run containers, whose main container carries fields set
by the runtime, three declared replicas and two ready ones. -/
def sampleLive : StatefulSet :=
  { Spec :=
      { Replicas := some 3
        Template := { Spec :=
          { InitContainers := [{ Name := "init-mysql" }, { Name := "clone-mysql" }]
            Containers :=
              [ { Name := "mysql"
                  TerminationMessagePath := "/dev/termination-log"
                  TerminationMessagePolicy := "File"
                  SecurityContext := some ⟨"runAsUser: 999"⟩ },
                { Name := "helper" },
                { Name := "metrics-exporter" } ] } }
        VolumeClaimTemplates := [{ Spec := { VolumeName := "pv-0001" } }] }
    Status := { Replicas := 3, ReadyReplicas := 2 } }

/-- A create-or-patch primitive that fails with a conflict without running the
mutation function. -/
def sampleFailingPatch : CreateOrPatch :=
  fun _ _ f => some ({ obj := none, act := "unchanged", err := some ⟨"conflict"⟩ }, f)

/-- A create-or-patch primitive that finds no object, runs the mutation function on a
fresh one and reports a creation. -/
def sampleCreatingPatch : CreateOrPatch :=
  fun m t f =>
    match t { ObjectMeta := m } f with
    | some (o, g) => some ({ obj := some o, act := "created", err := none }, g)
    | none => none

/-- The sample cluster with the init-bucket secret "seed-creds". -/
def sampleSeedFactory : cFactory :=
  { sampleFactory with
    cluster := { sampleFactory.cluster with
      Spec := { sampleFactory.cluster.Spec with InitBucketSecretName := "seed-creds" } } }

/-- A volume-claim template that the runtime has bound to a volume. -/
def sampleBoundClaim : PersistentVolumeClaim :=
  { ObjectMeta := { Name := "data", Rest := ⟨"uid: 42"⟩ }
    Spec := { VolumeName := "pv-0001" }
    Status := ⟨"phase: Bound"⟩ }

/-! ## Basic facts about strings, slices and maps -/

theorem strLen_eq_zero_iff (s : String) : strLen s = 0 ↔ s = "" := by
  constructor
  · intro h
    cases s with
    | mk l =>
      cases l with
      | nil => rfl
      | cons c t =>
        exfalso
        have hc := Char.utf8Size_pos c
        simp [strLen, String.utf8ByteSize, String.utf8ByteSize.go] at h
        omega
  · rintro rfl; rfl

theorem length_three {α : Type} (l : List α) (h : l.length = 3) :
    ∃ a b c, l = [a, b, c] := by
  match l, h with
  | [a, b, c], _ => exact ⟨a, b, c, rfl⟩

theorem length_two {α : Type} (l : List α) (h : l.length = 2) :
    ∃ a b, l = [a, b] := by
  match l, h with
  | [a, b], _ => exact ⟨a, b, rfl⟩

theorem length_four {α : Type} (l : List α) (h : l.length = 4) :
    ∃ a b c d, l = [a, b, c, d] := by
  match l, h with
  | [a, b, c, d], _ => exact ⟨a, b, c, d, rfl⟩

/-! ## Run containers -/

/-- The run-container builder never indexes outside its slice. -/
theorem ensureContainersSpec_total (P : Pkg) (f : cFactory) (inp : List Container) :
    ∃ out, ensureContainersSpec P f inp = some out := by
  by_cases h : inp.length = 3
  · obtain ⟨a, b, c, rfl⟩ := length_three inp h
    simp [ensureContainersSpec, sliceGet, sliceSet]
  · simp [ensureContainersSpec, h, sliceGet, sliceSet, makeSlice, List.replicate]

/-- C2: whatever the prior run-container list, `ensureContainersSpec` returns exactly
three containers, named in this order "mysql", "helper", "metrics-exporter". -/
theorem ensureContainersSpec_three_names (P : Pkg) (f : cFactory) (inp : List Container) :
    ∃ out, ensureContainersSpec P f inp = some out ∧ out.length = 3 ∧
      out.map Container.Name = ["mysql", "helper", "metrics-exporter"] := by
  by_cases h : inp.length = 3
  · obtain ⟨a, b, c, rfl⟩ := length_three inp h
    simp [ensureContainersSpec, sliceGet, sliceSet, makeSlice, ensureContainer,
      containerMysqlName, containerHelperName, containerExporterName]
  · simp [ensureContainersSpec, h, sliceGet, sliceSet, makeSlice, ensureContainer,
      containerMysqlName, containerHelperName, containerExporterName, List.replicate]

/-! ## Init containers -/

/-- A prior list that is empty or has exactly two entries yields exactly the two init
containers "init-mysql" and "clone-mysql". -/
theorem ensureInitContainersSpec_zero_or_two (P : Pkg) (f : cFactory) (inp : List Container)
    (h : inp.length = 0 ∨ inp.length = 2) :
    ∃ out, ensureInitContainersSpec P f inp = some out ∧
      out.map Container.Name = ["init-mysql", "clone-mysql"] := by
  rcases h with h | h
  · have : inp = [] := List.length_eq_zero.mp h
    subst this
    simp [ensureInitContainersSpec, sliceGet, sliceSet, makeSlice, ensureContainer,
      containerInitName, containerCloneName, List.replicate]
  · obtain ⟨a, b, rfl⟩ := length_two inp h
    simp [ensureInitContainersSpec, sliceGet, sliceSet, ensureContainer,
      containerInitName, containerCloneName]

/-- C3 (the code at failing inputs): a prior list of three init containers comes back
with three entries, the third one untouched, and a prior list of one init container
makes the write to index 1 fall outside the slice. -/
theorem ensureInitContainersSpec_other_lengths :
    (ensureInitContainersSpec samplePkg sampleFactory
        [{}, {}, { Name := "istio-init" }]).map (List.map Container.Name)
      = some ["init-mysql", "clone-mysql", "istio-init"] ∧
    ensureInitContainersSpec samplePkg sampleFactory [{ Name := "init-mysql" }] = none := by
  constructor <;> decide

/-! ## Volumes -/

theorem ensureVolumes_without_secret (f : cFactory) (inp : List Volume)
    (hf : f.cluster.Spec.GetOrcTopologySecret = "") :
    ∃ out, ensureVolumes f inp = some out ∧
      out.map Volume.Name = ["conf", "config-map", "data"] := by
  by_cases h : inp.length = 3
  · obtain ⟨a, b, c, rfl⟩ := length_three inp h
    simp [ensureVolumes, hf, strLen_eq_zero_iff, sliceGet, sliceSet, ensureVolume,
      confVolumeName, confMapVolumeName, dataVolumeName]
  · simp [ensureVolumes, hf, h, strLen_eq_zero_iff, sliceGet, sliceSet, makeSlice,
      ensureVolume, confVolumeName, confMapVolumeName, dataVolumeName, List.replicate]

theorem ensureVolumes_with_secret (f : cFactory) (inp : List Volume)
    (hf : f.cluster.Spec.GetOrcTopologySecret ≠ "") :
    ∃ out, ensureVolumes f inp = some out ∧
      out.map Volume.Name = ["conf", "config-map", "data", "orc-topology-secret"] ∧
      (out.get? 3).map Volume.VolumeSource = some
        { Secret := some { SecretName := f.cluster.Spec.GetOrcTopologySecret,
                           DefaultMode := some 420 } } := by
  by_cases h : inp.length = 4
  · obtain ⟨a, b, c, d, rfl⟩ := length_four inp h
    simp [ensureVolumes, hf, strLen_eq_zero_iff, sliceGet, sliceSet, ensureVolume,
      confVolumeName, confMapVolumeName, dataVolumeName, orcSecretVolumeName]
  · simp [ensureVolumes, hf, h, strLen_eq_zero_iff, sliceGet, sliceSet, makeSlice,
      ensureVolume, confVolumeName, confMapVolumeName, dataVolumeName,
      orcSecretVolumeName, List.replicate]

/-- C4: with an empty orchestrator-topology secret name `ensureVolumes` returns the
three volumes "conf", "config-map", "data"; with a non-empty name it returns those three
followed by "orc-topology-secret", backed by the named secret; this holds for every
prior list, so feeding the output of one setting to the other toggles the count
between 3 and 4. -/
theorem ensureVolumes_count (f g : cFactory) (inp : List Volume)
    (hf : f.cluster.Spec.GetOrcTopologySecret = "")
    (hg : g.cluster.Spec.GetOrcTopologySecret ≠ "") :
    ∃ o3 o4 t4 t3,
      ensureVolumes f inp = some o3 ∧ o3.length = 3 ∧
      o3.map Volume.Name = ["conf", "config-map", "data"] ∧
      ensureVolumes g inp = some o4 ∧ o4.length = 4 ∧
      o4.map Volume.Name = ["conf", "config-map", "data", "orc-topology-secret"] ∧
      (o4.get? 3).map Volume.VolumeSource = some
        { Secret := some { SecretName := g.cluster.Spec.GetOrcTopologySecret,
                           DefaultMode := some 420 } } ∧
      ensureVolumes g o3 = some t4 ∧ t4.length = 4 ∧
      ensureVolumes f o4 = some t3 ∧ t3.length = 3 := by
  obtain ⟨o3, h3, n3⟩ := ensureVolumes_without_secret f inp hf
  obtain ⟨o4, h4, n4, s4⟩ := ensureVolumes_with_secret g inp hg
  obtain ⟨t4, ht4, m4, _⟩ := ensureVolumes_with_secret g o3 hg
  obtain ⟨t3, ht3, m3⟩ := ensureVolumes_without_secret f o4 hf
  have len : ∀ (l : List Volume) (ns : List String), l.map Volume.Name = ns →
      l.length = ns.length := fun l ns h => by rw [← h, List.length_map]
  exact ⟨o3, o4, t4, t3, h3, len _ _ n3, n3, h4, len _ _ n4, n4, s4, ht4, len _ _ m4,
    ht3, len _ _ m3⟩

/-- Witness for C4: a cluster without and one with a topology secret, on an empty
prior volume list. -/
theorem ensureVolumes_count_witness :
    ∃ o3 o4 t4 t3,
      ensureVolumes sampleFactory [] = some o3 ∧ o3.length = 3 ∧
      o3.map Volume.Name = ["conf", "config-map", "data"] ∧
      ensureVolumes sampleOrcFactory [] = some o4 ∧ o4.length = 4 ∧
      o4.map Volume.Name = ["conf", "config-map", "data", "orc-topology-secret"] ∧
      (o4.get? 3).map Volume.VolumeSource = some
        { Secret := some { SecretName := "orc-creds", DefaultMode := some 420 } } ∧
      ensureVolumes sampleOrcFactory o3 = some t4 ∧ t4.length = 4 ∧
      ensureVolumes sampleFactory o4 = some t3 ∧ t3.length = 3 :=
  ensureVolumes_count sampleFactory sampleOrcFactory [] (by decide) (by decide)

/-! ## Maps -/

theorem StrMap.get_set_same (m : StrMap) (k v : String) :
    StrMap.get (StrMap.set m k v) k = some v := by
  induction m with
  | nil => simp [StrMap.set, StrMap.get]
  | cons p t ih =>
    obtain ⟨k', v'⟩ := p
    by_cases h : k' = k
    · simp [StrMap.set, StrMap.get, h]
    · simp [StrMap.set, StrMap.get, h, ih]

theorem StrMap.get_set_other (m : StrMap) (k v j : String) (hj : k ≠ j) :
    StrMap.get (StrMap.set m k v) j = StrMap.get m j := by
  induction m with
  | nil => simp [StrMap.set, StrMap.get, hj]
  | cons p t ih =>
    obtain ⟨k', v'⟩ := p
    by_cases h : k' = k
    · subst h
      simp [StrMap.set, StrMap.get, hj]
    · by_cases h2 : k' = j
      · subst h2
        simp [StrMap.set, StrMap.get, h]
      · simp [StrMap.set, StrMap.get, h, h2, ih]

theorem StrMap.set_of_get (m : StrMap) (k v : String) (h : StrMap.get m k = some v) :
    StrMap.set m k v = m := by
  induction m with
  | nil => simp [StrMap.get] at h
  | cons p t ih =>
    obtain ⟨k', v'⟩ := p
    by_cases hk : k' = k
    · subst hk
      simp [StrMap.get] at h
      simp [StrMap.set, h]
    · simp [StrMap.get, hk] at h
      simp [StrMap.set, hk, ih h]

theorem StrMap.set_ne_nil (m : StrMap) (k v : String) : StrMap.set m k v ≠ [] := by
  cases m with
  | nil => simp [StrMap.set]
  | cons p t =>
    obtain ⟨k', v'⟩ := p
    by_cases h : k' = k <;> simp [StrMap.set, h]

/-! ## The pod template -/

theorem annotations_config_hash (P : Pkg) (f : cFactory) :
    StrMap.get (ensureTemplate.annotations P f) "config_hash" = some f.configHash := by
  unfold ensureTemplate.annotations
  simp only []
  rw [StrMap.get_set_other _ _ _ _ (by decide), StrMap.get_set_other _ _ _ _ (by decide),
    StrMap.get_set_same]

theorem annotations_scrape (P : Pkg) (f : cFactory) :
    StrMap.get (ensureTemplate.annotations P f) "prometheus.io/scrape" = some "true" := by
  unfold ensureTemplate.annotations
  simp only []
  rw [StrMap.get_set_other _ _ _ _ (by decide), StrMap.get_set_same]

theorem annotations_port (P : Pkg) (f : cFactory) :
    StrMap.get (ensureTemplate.annotations P f) "prometheus.io/port"
      = some (toString P.ExporterPort) := by
  unfold ensureTemplate.annotations
  simp only []
  rw [StrMap.get_set_same]

theorem annotations_other (P : Pkg) (f : cFactory) (k : String)
    (h1 : k ≠ "config_hash") (h2 : k ≠ "prometheus.io/scrape")
    (h3 : k ≠ "prometheus.io/port") :
    StrMap.get (ensureTemplate.annotations P f) k
      = StrMap.get f.cluster.Spec.PodSpec.Annotations k := by
  unfold ensureTemplate.annotations
  simp only []
  rw [StrMap.get_set_other _ _ _ _ (Ne.symm h3), StrMap.get_set_other _ _ _ _ (Ne.symm h2),
    StrMap.get_set_other _ _ _ _ (Ne.symm h1)]
  split
  · rename_i h
    rw [List.length_eq_zero.mp h]
  · rfl

theorem annotations_ne_nil (P : Pkg) (f : cFactory) :
    (ensureTemplate.annotations P f).length ≠ 0 := by
  unfold ensureTemplate.annotations
  simp only []
  intro h
  exact StrMap.set_ne_nil _ _ _ (List.length_eq_zero.mp h)

/-- Writing the three managed keys into a map that already is the result of
`ensureTemplate.annotations` changes nothing. -/
theorem annotations_withPodAnnotations (P : Pkg) (f : cFactory) :
    ensureTemplate.annotations P (f.withPodAnnotations (ensureTemplate.annotations P f))
      = ensureTemplate.annotations P f := by
  have hne := annotations_ne_nil P f
  have e : ensureTemplate.annotations P (f.withPodAnnotations (ensureTemplate.annotations P f))
      = StrMap.set (StrMap.set (StrMap.set
          (if (ensureTemplate.annotations P f).length = 0 then []
            else ensureTemplate.annotations P f)
          "config_hash" f.configHash) "prometheus.io/scrape" "true")
          "prometheus.io/port" (toString P.ExporterPort) := rfl
  rw [e, if_neg hne, StrMap.set_of_get _ _ _ (annotations_config_hash P f),
    StrMap.set_of_get _ _ _ (annotations_scrape P f),
    StrMap.set_of_get _ _ _ (annotations_port P f)]

/-- What `ensureTemplate` returns, in terms of the three slice builders. -/
theorem ensureTemplate_eq_some (P : Pkg) (f : cFactory) (inp : PodTemplateSpec)
    (ic cs : List Container) (vs : List Volume)
    (hic : ensureInitContainersSpec P f inp.Spec.InitContainers = some ic)
    (hcs : ensureContainersSpec P f inp.Spec.Containers = some cs)
    (hvs : ensureVolumes f inp.Spec.Volumes = some vs) :
    ensureTemplate P f inp = some
      ({ inp with
          ObjectMeta := { inp.ObjectMeta with
            Labels := f.getLabels f.cluster.Spec.PodSpec.Labels
            Annotations := ensureTemplate.annotations P f }
          Spec := { inp.Spec with
            InitContainers := ic
            Containers := cs
            Volumes := vs
            Affinity := some f.cluster.Spec.PodSpec.Affinity
            NodeSelector := f.cluster.Spec.PodSpec.NodeSelector
            ImagePullSecrets := f.cluster.Spec.PodSpec.ImagePullSecrets } },
        if f.cluster.Spec.PodSpec.Annotations.length = 0 then f
        else f.withPodAnnotations (ensureTemplate.annotations P f)) := by
  by_cases h : f.cluster.Spec.PodSpec.Annotations.length = 0
  · simp only [ensureTemplate, h, if_true, hic, hcs, hvs]
    rfl
  · have hic' : ensureInitContainersSpec P
        (f.withPodAnnotations (ensureTemplate.annotations P f)) inp.Spec.InitContainers
        = some ic := hic
    have hcs' : ensureContainersSpec P
        (f.withPodAnnotations (ensureTemplate.annotations P f)) inp.Spec.Containers
        = some cs := hcs
    have hvs' : ensureVolumes
        (f.withPodAnnotations (ensureTemplate.annotations P f)) inp.Spec.Volumes
        = some vs := hvs
    simp only [ensureTemplate, h, if_false, hic', hcs', hvs']
    rfl

/-- Whenever `ensureTemplate` returns, the three slice builders returned. -/
theorem ensureTemplate_some_inv (P : Pkg) (f : cFactory) (inp out : PodTemplateSpec)
    (g : cFactory) (h : ensureTemplate P f inp = some (out, g)) :
    ∃ ic cs vs,
      ensureInitContainersSpec P f inp.Spec.InitContainers = some ic ∧
      ensureContainersSpec P f inp.Spec.Containers = some cs ∧
      ensureVolumes f inp.Spec.Volumes = some vs := by
  cases hic : ensureInitContainersSpec P f inp.Spec.InitContainers with
  | none =>
    exfalso
    have hic' : ∀ a, ensureInitContainersSpec P (f.withPodAnnotations a)
        inp.Spec.InitContainers = none := fun _ => hic
    by_cases ha : f.cluster.Spec.PodSpec.Annotations.length = 0
    · simp [ensureTemplate, ha, hic] at h
    · simp [ensureTemplate, ha, hic'] at h
  | some ic =>
    obtain ⟨cs, hcs⟩ := ensureContainersSpec_total P f inp.Spec.Containers
    cases hvs : ensureVolumes f inp.Spec.Volumes with
    | none =>
      exfalso
      have hic' : ∀ a, ensureInitContainersSpec P (f.withPodAnnotations a)
          inp.Spec.InitContainers = some ic := fun _ => hic
      have hcs' : ∀ a, ensureContainersSpec P (f.withPodAnnotations a)
          inp.Spec.Containers = some cs := fun _ => hcs
      have hvs' : ∀ a, ensureVolumes (f.withPodAnnotations a) inp.Spec.Volumes = none :=
        fun _ => hvs
      by_cases ha : f.cluster.Spec.PodSpec.Annotations.length = 0
      · simp [ensureTemplate, ha, hic, hcs, hvs] at h
      · simp [ensureTemplate, ha, hic', hcs', hvs'] at h
    | some vs => exact ⟨ic, cs, vs, rfl, hcs, rfl⟩

/-- Whenever `ensureTemplate` returns, its result is built from the results of the three
slice builders. -/
theorem ensureTemplate_result (P : Pkg) (f : cFactory) (inp out : PodTemplateSpec)
    (g : cFactory) (h : ensureTemplate P f inp = some (out, g)) :
    ∃ ic cs vs,
      ensureInitContainersSpec P f inp.Spec.InitContainers = some ic ∧
      ensureContainersSpec P f inp.Spec.Containers = some cs ∧
      ensureVolumes f inp.Spec.Volumes = some vs ∧
      out = { inp with
          ObjectMeta := { inp.ObjectMeta with
            Labels := f.getLabels f.cluster.Spec.PodSpec.Labels
            Annotations := ensureTemplate.annotations P f }
          Spec := { inp.Spec with
            InitContainers := ic
            Containers := cs
            Volumes := vs
            Affinity := some f.cluster.Spec.PodSpec.Affinity
            NodeSelector := f.cluster.Spec.PodSpec.NodeSelector
            ImagePullSecrets := f.cluster.Spec.PodSpec.ImagePullSecrets } } ∧
      g = (if f.cluster.Spec.PodSpec.Annotations.length = 0 then f
        else f.withPodAnnotations (ensureTemplate.annotations P f)) := by
  obtain ⟨ic, cs, vs, hic, hcs, hvs⟩ := ensureTemplate_some_inv P f inp out g h
  have e := ensureTemplate_eq_some P f inp ic cs vs hic hcs hvs
  rw [h] at e
  have e1 := congrArg Prod.fst (Option.some.inj e)
  have e2 := congrArg Prod.snd (Option.some.inj e)
  exact ⟨ic, cs, vs, hic, hcs, hvs, e1, e2⟩

/-- C10: whatever annotations the existing template or the cluster spec carry, the
template returned by `ensureTemplate` has "config_hash" bound to the factory's
configHash, "prometheus.io/scrape" bound to "true" and "prometheus.io/port" bound to
the decimal rendering of ExporterPort. -/
theorem ensureTemplate_managed_annotations (P : Pkg) (f : cFactory)
    (inp out : PodTemplateSpec) (g : cFactory)
    (h : ensureTemplate P f inp = some (out, g)) :
    StrMap.get out.ObjectMeta.Annotations "config_hash" = some f.configHash ∧
    StrMap.get out.ObjectMeta.Annotations "prometheus.io/scrape" = some "true" ∧
    StrMap.get out.ObjectMeta.Annotations "prometheus.io/port"
      = some (toString P.ExporterPort) := by
  obtain ⟨ic, cs, vs, -, -, -, rfl, -⟩ := ensureTemplate_result P f inp out g h
  exact ⟨annotations_config_hash P f, annotations_scrape P f, annotations_port P f⟩

/-- Witness for C10: both the existing template and the cluster spec already hold
other values under the managed keys. -/
theorem ensureTemplate_managed_annotations_witness :
    ∃ out g, ensureTemplate samplePkg sampleStaleFactory sampleStaleTemplate = some (out, g) ∧
      StrMap.get out.ObjectMeta.Annotations "config_hash" = some "abc123" ∧
      StrMap.get out.ObjectMeta.Annotations "prometheus.io/scrape" = some "true" ∧
      StrMap.get out.ObjectMeta.Annotations "prometheus.io/port" = some "9104" :=
  ⟨_, _, rfl, ensureTemplate_managed_annotations samplePkg sampleStaleFactory
    sampleStaleTemplate _ _ rfl⟩

/-- C9 as stated fails: an annotation of the existing pod template under an unmanaged
key is absent from the returned template when the cluster spec does not carry it. -/
theorem ensureTemplate_drops_template_annotations :
    ¬ (∀ (P : Pkg) (f : cFactory) (inp out : PodTemplateSpec) (g : cFactory)
        (k v : String),
        inp.ObjectMeta.Annotations ≠ [] →
        ensureTemplate P f inp = some (out, g) →
        k ≠ "config_hash" → k ≠ "prometheus.io/scrape" → k ≠ "prometheus.io/port" →
        StrMap.get inp.ObjectMeta.Annotations k = some v →
        StrMap.get out.ObjectMeta.Annotations k = some v) := by
  intro hall
  have h := hall samplePkg sampleFactory sampleStaleTemplate _ _ "owner" "team-a"
    (by decide) rfl (by decide) (by decide) (by decide) (by decide)
  revert h
  decide

/-- C9 amended: the annotations of the returned template come from the cluster spec;
under every key other than the three managed ones the returned template has exactly
the binding of `f.cluster.Spec.PodSpec.Annotations`. -/
theorem ensureTemplate_keeps_cluster_annotations (P : Pkg) (f : cFactory)
    (inp out : PodTemplateSpec) (g : cFactory) (k : String)
    (h : ensureTemplate P f inp = some (out, g))
    (h1 : k ≠ "config_hash") (h2 : k ≠ "prometheus.io/scrape")
    (h3 : k ≠ "prometheus.io/port") :
    StrMap.get out.ObjectMeta.Annotations k
      = StrMap.get f.cluster.Spec.PodSpec.Annotations k := by
  obtain ⟨ic, cs, vs, -, -, -, rfl, -⟩ := ensureTemplate_result P f inp out g h
  exact annotations_other P f k h1 h2 h3

/-- Witness for the amended C9: the cluster annotation "team" reaches the template. -/
theorem ensureTemplate_keeps_cluster_annotations_witness :
    ∃ out g, ensureTemplate samplePkg sampleOrcFactory sampleStaleTemplate = some (out, g) ∧
      StrMap.get out.ObjectMeta.Annotations "team" = some "db" :=
  ⟨_, _, rfl, ensureTemplate_keeps_cluster_annotations samplePkg sampleOrcFactory
    sampleStaleTemplate _ _ "team" rfl (by decide) (by decide) (by decide)⟩

/-! ## The mutation function of `syncStatefulSet` -/

theorem ensureVolumeClaimTemplates_frame (f g : cFactory)
    (h : g.cluster.Spec.VolumeSpec = f.cluster.Spec.VolumeSpec)
    (inp : List PersistentVolumeClaim) :
    ensureVolumeClaimTemplates g inp = ensureVolumeClaimTemplates f inp := by
  simp only [ensureVolumeClaimTemplates, h]

/-- Whenever the mutation function returns, its result is built from the results of
`ensureTemplate` and `ensureVolumeClaimTemplates`. -/
theorem mutate_result (P : Pkg) (f : cFactory) (inp out : StatefulSet) (g : cFactory)
    (h : syncStatefulSet.mutate P f inp = some (out, g)) :
    ∃ tpl claims,
      ensureTemplate P (syncStatefulSet.evalStatus P f inp) inp.Spec.Template
        = some (tpl, g) ∧
      ensureVolumeClaimTemplates f inp.Spec.VolumeClaimTemplates = some claims ∧
      out = { inp with Spec := { inp.Spec with
        Replicas := some f.cluster.Spec.Replicas
        Selector := some { MatchLabels := f.getLabels [] }
        ServiceName := f.cluster.GetNameForResource ResourceName.HeadlessSVC
        Template := tpl
        VolumeClaimTemplates := claims } } := by
  cases ht : ensureTemplate P (syncStatefulSet.evalStatus P f inp) inp.Spec.Template with
  | none => simp [syncStatefulSet.mutate, ht] at h
  | some r =>
    obtain ⟨tpl, g1⟩ := r
    obtain ⟨_, _, _, _, _, _, _, hg⟩ := ensureTemplate_result P _ _ _ _ ht
    have hfr : ∀ l, ensureVolumeClaimTemplates g1 l = ensureVolumeClaimTemplates f l := by
      intro l
      apply ensureVolumeClaimTemplates_frame
      rw [hg]
      split <;> rfl
    cases hc : ensureVolumeClaimTemplates f inp.Spec.VolumeClaimTemplates with
    | none => simp [syncStatefulSet.mutate, ht, hfr, hc] at h
    | some claims =>
      simp only [syncStatefulSet.mutate, ht, hfr, hc, Option.bind_eq_bind, Option.some_bind,
        Option.pure_def, Option.some.injEq, Prod.mk.injEq] at h
      obtain ⟨h1, h2⟩ := h
      subst h2
      exact ⟨tpl, claims, rfl, rfl, h1.symm⟩

theorem ensureContainersSpec_main (P : Pkg) (f : cFactory) (a b c : Container) :
    ∃ m h e, ensureContainersSpec P f [a, b, c] = some [m, h, e] ∧
      m = { a with
        Name := m.Name, Image := m.Image, ImagePullPolicy := m.ImagePullPolicy
        Args := m.Args, EnvFrom := m.EnvFrom, VolumeMounts := m.VolumeMounts
        Ports := m.Ports, Resources := m.Resources
        LivenessProbe := m.LivenessProbe, ReadinessProbe := m.ReadinessProbe } := by
  simp [ensureContainersSpec, sliceGet, sliceSet, ensureContainer]

/-- C5: when the prior object has exactly three run containers, the main container
(index 0) of the mutated object keeps the prior value of every field other than Name,
Image, ImagePullPolicy, Args, EnvFrom, VolumeMounts, Ports, Resources, LivenessProbe
and ReadinessProbe, and Spec.Replicas is the replica count of the cluster spec. -/
theorem mutate_preserves_main_container (P : Pkg) (f : cFactory) (inp out : StatefulSet)
    (g : cFactory) (h : syncStatefulSet.mutate P f inp = some (out, g))
    (h3 : inp.Spec.Template.Spec.Containers.length = 3) :
    ∃ c0 m0,
      inp.Spec.Template.Spec.Containers.get? 0 = some c0 ∧
      out.Spec.Template.Spec.Containers.get? 0 = some m0 ∧
      m0 = { c0 with
        Name := m0.Name, Image := m0.Image, ImagePullPolicy := m0.ImagePullPolicy
        Args := m0.Args, EnvFrom := m0.EnvFrom, VolumeMounts := m0.VolumeMounts
        Ports := m0.Ports, Resources := m0.Resources
        LivenessProbe := m0.LivenessProbe, ReadinessProbe := m0.ReadinessProbe } ∧
      out.Spec.Replicas = some f.cluster.Spec.Replicas := by
  obtain ⟨tpl, claims, ht, -, rfl⟩ := mutate_result P f inp out g h
  obtain ⟨ic, cs, vs, -, hcs, -, rfl, -⟩ := ensureTemplate_result P _ _ _ _ ht
  obtain ⟨a, b, c, habc⟩ := length_three _ h3
  obtain ⟨m, hh, e, hm, hframe⟩ := ensureContainersSpec_main P f a b c
  have hcs' : ensureContainersSpec P f inp.Spec.Template.Spec.Containers = some cs := hcs
  rw [habc, hm] at hcs'
  have hcs'' : cs = [m, hh, e] := (Option.some.inj hcs').symm
  subst hcs''
  refine ⟨a, m, ?_, rfl, hframe, rfl⟩
  rw [habc]
  rfl

/-- Witness for C5: prior replica count 3, cluster spec 5, and a main container with
runtime-set termination-message and security-context fields. -/
theorem mutate_preserves_main_container_witness :
    ∃ out g c0 m0, syncStatefulSet.mutate samplePkg sampleFactory sampleLive = some (out, g) ∧
      sampleLive.Spec.Replicas = some 3 ∧
      sampleLive.Spec.Template.Spec.Containers.get? 0 = some c0 ∧
      out.Spec.Template.Spec.Containers.get? 0 = some m0 ∧
      m0 = { c0 with
        Name := m0.Name, Image := m0.Image, ImagePullPolicy := m0.ImagePullPolicy
        Args := m0.Args, EnvFrom := m0.EnvFrom, VolumeMounts := m0.VolumeMounts
        Ports := m0.Ports, Resources := m0.Resources
        LivenessProbe := m0.LivenessProbe, ReadinessProbe := m0.ReadinessProbe } ∧
      out.Spec.Replicas = some 5 := by
  obtain ⟨c0, m0, h1, h2, h3, h4⟩ := mutate_preserves_main_container samplePkg sampleFactory
    sampleLive _ _ rfl rfl
  exact ⟨_, _, c0, m0, rfl, rfl, h1, h2, h3, h4⟩

/-- C6: the object returned by the mutation function has the status of the prior
object; the mutation writes Spec fields only. -/
theorem mutate_keeps_status (P : Pkg) (f : cFactory) (inp out : StatefulSet) (g : cFactory)
    (h : syncStatefulSet.mutate P f inp = some (out, g)) :
    out.Status = inp.Status ∧ out.ObjectMeta = inp.ObjectMeta := by
  obtain ⟨tpl, claims, -, -, rfl⟩ := mutate_result P f inp out g h
  exact ⟨rfl, rfl⟩

/-- Witness for C6 on the live object with three replicas, two of them ready. -/
theorem mutate_keeps_status_witness :
    ∃ out g, syncStatefulSet.mutate samplePkg sampleFactory sampleLive = some (out, g) ∧
      out.Status = sampleLive.Status ∧ out.ObjectMeta = sampleLive.ObjectMeta :=
  ⟨_, _, rfl, mutate_keeps_status samplePkg sampleFactory sampleLive _ _ rfl⟩

/-- C7: the cluster status after the status evaluation is the prior cluster status with
the Ready condition updated to true, reason "statefulset ready", message "Cluster is
ready.", when the object's ready-replica count equals its replica count, and to false,
reason "statefulset not ready", message "Cluster is not ready.", otherwise; its
ready-node count is the object's ready-replica count; it does not depend on the cluster
spec; and it is the cluster status which the mutation function leaves behind. -/
theorem evalStatus_readiness (P : Pkg) (f : cFactory) (inp : StatefulSet) :
    (inp.Status.ReadyReplicas = inp.Status.Replicas →
      (syncStatefulSet.evalStatus P f inp).cluster.Status =
        { P.UpdateStatusCondition f.cluster.Status P.ClusterConditionReady
            "True" "statefulset ready" "Cluster is ready." with
          ReadyNodes := inp.Status.ReadyReplicas }) ∧
    (inp.Status.ReadyReplicas ≠ inp.Status.Replicas →
      (syncStatefulSet.evalStatus P f inp).cluster.Status =
        { P.UpdateStatusCondition f.cluster.Status P.ClusterConditionReady
            "False" "statefulset not ready" "Cluster is not ready." with
          ReadyNodes := inp.Status.ReadyReplicas }) ∧
    (syncStatefulSet.evalStatus P f inp).cluster.Status.ReadyNodes
      = inp.Status.ReadyReplicas ∧
    (∀ spec : ClusterSpec,
      (syncStatefulSet.evalStatus P
          { f with cluster := { f.cluster with Spec := spec } } inp).cluster.Status
        = (syncStatefulSet.evalStatus P f inp).cluster.Status) ∧
    (∀ out g, syncStatefulSet.mutate P f inp = some (out, g) →
      g.cluster.Status = (syncStatefulSet.evalStatus P f inp).cluster.Status) := by
  refine ⟨?_, ?_, rfl, fun _ => rfl, ?_⟩
  · intro h
    simp [syncStatefulSet.evalStatus, h, cFactory.withStatus, ConditionTrue]
  · intro h
    simp [syncStatefulSet.evalStatus, h, cFactory.withStatus, ConditionFalse]
  · intro out g h
    obtain ⟨tpl, claims, ht, -, -⟩ := mutate_result P f inp out g h
    obtain ⟨_, _, _, -, -, -, -, hg⟩ := ensureTemplate_result P _ _ _ _ ht
    rw [hg]
    split <;> rfl

/-- Witness for C7: with replicas 3 and ready replicas 2 the condition is false and the
ready-node count is 2, and the mutation function leaves that status behind. -/
theorem evalStatus_readiness_witness :
    (syncStatefulSet.evalStatus samplePkg sampleFactory sampleLive).cluster.Status =
      { Conditions := [⟨"Ready=False: statefulset not ready: Cluster is not ready."⟩]
        ReadyNodes := 2 } ∧
    ∃ out g, syncStatefulSet.mutate samplePkg sampleFactory sampleLive = some (out, g) ∧
      g.cluster.Status.ReadyNodes = 2 := by
  have h := evalStatus_readiness samplePkg sampleFactory sampleLive
  refine ⟨h.2.1 (by decide), _, _, rfl, ?_⟩
  rw [h.2.2.2.2 _ _ rfl]
  exact h.2.2.1

/-- C8: when the create-or-patch primitive returns an error, `syncStatefulSet` returns
statusFailed with that very error; when it returns no error, `syncStatefulSet` returns
no error and the state `getStatusFromKVerb act` for the reported action. -/
theorem syncStatefulSet_reports (P : Pkg) (createOrPatch : CreateOrPatch) (f g : cFactory)
    (r : PatchOutcome)
    (h : createOrPatch (syncStatefulSet.objMeta f)
      (fun inp g => syncStatefulSet.mutate P g inp) f = some (r, g)) :
    (∀ e, r.err = some e →
      syncStatefulSet P createOrPatch f = some ((P.statusFailed, some e), g)) ∧
    (r.err = none →
      syncStatefulSet P createOrPatch f = some ((P.getStatusFromKVerb r.act, none), g)) := by
  constructor
  · intro e he
    simp [syncStatefulSet, h, he]
  · intro he
    simp [syncStatefulSet, h, he]

/-- Witness for C8: a primitive that fails with a conflict, and one that creates the
object. -/
theorem syncStatefulSet_reports_witness :
    (syncStatefulSet samplePkg sampleFailingPatch sampleFactory).map Prod.fst
      = some ("failed", some ⟨"conflict"⟩) ∧
    (syncStatefulSet samplePkg sampleCreatingPatch sampleFactory).map Prod.fst
      = some ("created", none) :=
  ⟨congrArg (Option.map Prod.fst)
      ((syncStatefulSet_reports samplePkg sampleFailingPatch sampleFactory _ _ rfl).1
        ⟨"conflict"⟩ rfl),
    congrArg (Option.map Prod.fst)
      ((syncStatefulSet_reports samplePkg sampleCreatingPatch sampleFactory _ _ rfl).2 rfl)⟩

/-! ## Idempotence -/

theorem ensureInitContainersSpec_idem (P : Pkg) (f : cFactory) (inp out : List Container)
    (h : ensureInitContainersSpec P f inp = some out) :
    ensureInitContainersSpec P f out = some out := by
  match inp with
  | [] =>
    simp [ensureInitContainersSpec, sliceGet, sliceSet, makeSlice, List.replicate] at h
    subst h
    simp [ensureInitContainersSpec, sliceGet, sliceSet, ensureContainer]
  | [a] =>
    simp [ensureInitContainersSpec, sliceGet, sliceSet] at h
  | a :: b :: t =>
    simp [ensureInitContainersSpec, sliceGet, sliceSet] at h
    subst h
    simp [ensureInitContainersSpec, sliceGet, sliceSet, ensureContainer]

theorem ensureContainersSpec_three (P : Pkg) (f : cFactory) (inp : List Container) :
    ∃ a b c, ensureContainersSpec P f inp = ensureContainersSpec P f [a, b, c] := by
  by_cases h : inp.length = 3
  · obtain ⟨a, b, c, rfl⟩ := length_three inp h
    exact ⟨a, b, c, rfl⟩
  · refine ⟨{}, {}, {}, ?_⟩
    simp [ensureContainersSpec, h, makeSlice, List.replicate]

theorem ensureContainersSpec_idem (P : Pkg) (f : cFactory) (inp out : List Container)
    (hports : ∀ base port,
      P.ensureContainerPorts (P.ensureContainerPorts base port) port
        = P.ensureContainerPorts base port)
    (hprobe : ∀ base ids ts ps handler,
      P.ensureProbe (P.ensureProbe base ids ts ps handler) ids ts ps handler
        = P.ensureProbe base ids ts ps handler)
    (h : ensureContainersSpec P f inp = some out) :
    ensureContainersSpec P f out = some out := by
  obtain ⟨a, b, c, e⟩ := ensureContainersSpec_three P f inp
  rw [e] at h
  simp [ensureContainersSpec, sliceGet, sliceSet] at h
  subst h
  simp [ensureContainersSpec, sliceGet, sliceSet, ensureContainer, hports, hprobe]

theorem ensureVolumes_idem (f : cFactory) (inp out : List Volume)
    (h : ensureVolumes f inp = some out) : ensureVolumes f out = some out := by
  by_cases hf : f.cluster.Spec.GetOrcTopologySecret = ""
  · have e : ∃ a b c, ensureVolumes f inp = ensureVolumes f [a, b, c] := by
      by_cases hl : inp.length = 3
      · obtain ⟨a, b, c, rfl⟩ := length_three inp hl
        exact ⟨a, b, c, rfl⟩
      · refine ⟨{}, {}, {}, ?_⟩
        simp [ensureVolumes, hf, hl, strLen_eq_zero_iff, makeSlice, List.replicate]
    obtain ⟨a, b, c, e⟩ := e
    rw [e] at h
    simp [ensureVolumes, hf, strLen_eq_zero_iff, sliceGet, sliceSet] at h
    subst h
    simp [ensureVolumes, hf, strLen_eq_zero_iff, sliceGet, sliceSet, ensureVolume]
  · have e : ∃ a b c d, ensureVolumes f inp = ensureVolumes f [a, b, c, d] := by
      by_cases hl : inp.length = 4
      · obtain ⟨a, b, c, d, rfl⟩ := length_four inp hl
        exact ⟨a, b, c, d, rfl⟩
      · refine ⟨{}, {}, {}, {}, ?_⟩
        simp [ensureVolumes, hf, hl, strLen_eq_zero_iff, makeSlice, List.replicate]
    obtain ⟨a, b, c, d, e⟩ := e
    rw [e] at h
    simp [ensureVolumes, hf, strLen_eq_zero_iff, sliceGet, sliceSet] at h
    subst h
    simp [ensureVolumes, hf, strLen_eq_zero_iff, sliceGet, sliceSet, ensureVolume]

theorem ensureVolumeClaimTemplates_idem (f : cFactory) (inp out : List PersistentVolumeClaim)
    (h : ensureVolumeClaimTemplates f inp = some out) :
    ensureVolumeClaimTemplates f out = some out := by
  match inp with
  | [] =>
    simp [ensureVolumeClaimTemplates, sliceGet, sliceSet, makeSlice, List.replicate] at h
    subst h
    simp [ensureVolumeClaimTemplates, sliceGet, sliceSet]
  | a :: t =>
    simp [ensureVolumeClaimTemplates, sliceGet, sliceSet] at h
    subst h
    simp [ensureVolumeClaimTemplates, sliceGet, sliceSet]

/-- The template returned by `ensureTemplate` is the same for two factories on which the
slice builders, the annotation map and the copied pod settings agree. -/
theorem ensureTemplate_fst_congr (P : Pkg) (f g : cFactory) (inp : PodTemplateSpec)
    (hic : ∀ l, ensureInitContainersSpec P g l = ensureInitContainersSpec P f l)
    (hcs : ∀ l, ensureContainersSpec P g l = ensureContainersSpec P f l)
    (hvs : ∀ l, ensureVolumes g l = ensureVolumes f l)
    (hann : ensureTemplate.annotations P g = ensureTemplate.annotations P f)
    (hlab : g.getLabels g.cluster.Spec.PodSpec.Labels
      = f.getLabels f.cluster.Spec.PodSpec.Labels)
    (haff : g.cluster.Spec.PodSpec.Affinity = f.cluster.Spec.PodSpec.Affinity)
    (hsel : g.cluster.Spec.PodSpec.NodeSelector = f.cluster.Spec.PodSpec.NodeSelector)
    (hips : g.cluster.Spec.PodSpec.ImagePullSecrets
      = f.cluster.Spec.PodSpec.ImagePullSecrets) :
    (ensureTemplate P g inp).map Prod.fst = (ensureTemplate P f inp).map Prod.fst := by
  have key : ∀ (a b : cFactory),
      (∀ l, ensureInitContainersSpec P b l = ensureInitContainersSpec P a l) →
      (∀ l, ensureContainersSpec P b l = ensureContainersSpec P a l) →
      (∀ l, ensureVolumes b l = ensureVolumes a l) →
      ensureTemplate.annotations P b = ensureTemplate.annotations P a →
      b.getLabels b.cluster.Spec.PodSpec.Labels = a.getLabels a.cluster.Spec.PodSpec.Labels →
      b.cluster.Spec.PodSpec.Affinity = a.cluster.Spec.PodSpec.Affinity →
      b.cluster.Spec.PodSpec.NodeSelector = a.cluster.Spec.PodSpec.NodeSelector →
      b.cluster.Spec.PodSpec.ImagePullSecrets = a.cluster.Spec.PodSpec.ImagePullSecrets →
      ∀ o a1, ensureTemplate P a inp = some (o, a1) →
        (ensureTemplate P b inp).map Prod.fst = some o := by
    intro a b kic kcs kvs kann klab kaff ksel kips o a1 h
    obtain ⟨ic, cs, vs, h1, h2, h3, rfl, -⟩ := ensureTemplate_result P a inp o a1 h
    rw [ensureTemplate_eq_some P b inp ic cs vs (by rw [kic, h1]) (by rw [kcs, h2])
      (by rw [kvs, h3]), kann, klab, kaff, ksel, kips]
    rfl
  cases hf : ensureTemplate P f inp with
  | some r =>
    obtain ⟨o, f1⟩ := r
    exact key f g hic hcs hvs hann hlab haff hsel hips o f1 hf
  | none =>
    cases hg : ensureTemplate P g inp with
    | none => rfl
    | some r =>
      obtain ⟨o, g1⟩ := r
      have := key g f (fun l => (hic l).symm) (fun l => (hcs l).symm)
        (fun l => (hvs l).symm) hann.symm hlab.symm haff.symm hsel.symm hips.symm o g1 hg
      rw [hf] at this
      simp at this

/-- A write to the cluster status, followed or not by the write of the managed
annotation keys into the cluster spec, does not change the template returned. -/
theorem ensureTemplate_fst_shape (P : Pkg) (f g : cFactory) (s : ClusterStatus)
    (inp : PodTemplateSpec)
    (hg : g = f.withStatus s ∨
      g = (f.withStatus s).withPodAnnotations (ensureTemplate.annotations P f)) :
    (ensureTemplate P g inp).map Prod.fst = (ensureTemplate P f inp).map Prod.fst := by
  rcases hg with rfl | rfl
  · exact ensureTemplate_fst_congr P f _ inp (fun _ => rfl) (fun _ => rfl) (fun _ => rfl)
      rfl rfl rfl rfl rfl
  · exact ensureTemplate_fst_congr P f _ inp (fun _ => rfl) (fun _ => rfl) (fun _ => rfl)
      (annotations_withPodAnnotations P (f.withStatus s)) rfl rfl rfl rfl

/-- The object returned by the mutation function, in closed form. -/
theorem mutate_fst (P : Pkg) (f : cFactory) (inp : StatefulSet) :
    (syncStatefulSet.mutate P f inp).map Prod.fst =
      ((ensureTemplate P f inp.Spec.Template).map Prod.fst).bind fun tpl =>
        (ensureVolumeClaimTemplates f inp.Spec.VolumeClaimTemplates).map fun claims =>
          { inp with Spec := { inp.Spec with
              Replicas := some f.cluster.Spec.Replicas
              Selector := some { MatchLabels := f.getLabels [] }
              ServiceName := f.cluster.GetNameForResource ResourceName.HeadlessSVC
              Template := tpl
              VolumeClaimTemplates := claims } } := by
  rw [← ensureTemplate_fst_shape P f (syncStatefulSet.evalStatus P f inp) _
    inp.Spec.Template (Or.inl rfl)]
  cases ht : ensureTemplate P (syncStatefulSet.evalStatus P f inp) inp.Spec.Template with
  | none => simp [syncStatefulSet.mutate, ht]
  | some r =>
    obtain ⟨tpl, g1⟩ := r
    obtain ⟨_, _, _, -, -, -, -, hg⟩ := ensureTemplate_result P _ _ _ _ ht
    have hfr : ∀ l, ensureVolumeClaimTemplates g1 l = ensureVolumeClaimTemplates f l := by
      intro l
      apply ensureVolumeClaimTemplates_frame
      rw [hg]
      split <;> rfl
    cases hc : ensureVolumeClaimTemplates f inp.Spec.VolumeClaimTemplates with
    | none => simp [syncStatefulSet.mutate, ht, hfr, hc]
    | some claims =>
      simp [syncStatefulSet.mutate, ht, hfr, hc]
      exact ⟨rfl, rfl, rfl⟩

/-- C1: applying the mutation function of `syncStatefulSet` to its own output, with the
factory as it was before the first application or as the first application left it,
returns that output again, provided `ensureContainerPorts` and `ensureProbe` are
idempotent in their base argument. -/
theorem mutate_idempotent (P : Pkg) (f g : cFactory) (inp out : StatefulSet)
    (hports : ∀ base port,
      P.ensureContainerPorts (P.ensureContainerPorts base port) port
        = P.ensureContainerPorts base port)
    (hprobe : ∀ base ids ts ps handler,
      P.ensureProbe (P.ensureProbe base ids ts ps handler) ids ts ps handler
        = P.ensureProbe base ids ts ps handler)
    (h : syncStatefulSet.mutate P f inp = some (out, g)) :
    (syncStatefulSet.mutate P f out).map Prod.fst = some out ∧
    (syncStatefulSet.mutate P g out).map Prod.fst = some out := by
  obtain ⟨tpl, claims, ht, hc, hout⟩ := mutate_result P f inp out g h
  obtain ⟨ic, cs, vs, hic, hcs, hvs, htpl, hg⟩ := ensureTemplate_result P _ _ _ _ ht
  have hic2 : ensureInitContainersSpec P f ic = some ic :=
    ensureInitContainersSpec_idem P f _ ic hic
  have hcs2 : ensureContainersSpec P f cs = some cs :=
    ensureContainersSpec_idem P f _ cs hports hprobe hcs
  have hvs2 : ensureVolumes f vs = some vs := ensureVolumes_idem f _ vs hvs
  have hc2 := ensureVolumeClaimTemplates_idem f _ claims hc
  have base : ∀ k : cFactory,
      (k = f.withStatus k.cluster.Status ∨
        k = (f.withStatus k.cluster.Status).withPodAnnotations
          (ensureTemplate.annotations P f)) →
      (syncStatefulSet.mutate P k out).map Prod.fst = some out := by
    intro k hk
    subst hout htpl
    rw [mutate_fst, ensureTemplate_fst_shape P f k k.cluster.Status _ hk,
      ensureTemplate_eq_some P f _ ic cs vs hic2 hcs2 hvs2]
    have hfr : ∀ l, ensureVolumeClaimTemplates k l = ensureVolumeClaimTemplates f l := by
      intro l
      apply ensureVolumeClaimTemplates_frame
      rcases hk with hk | hk <;> rw [hk] <;> rfl
    have e1 : k.cluster.Spec.Replicas = f.cluster.Spec.Replicas := by
      rcases hk with hk | hk <;> rw [hk] <;> rfl
    have e2 : k.getLabels = f.getLabels := by
      rcases hk with hk | hk <;> rw [hk] <;> rfl
    have e3 : k.cluster.GetNameForResource = f.cluster.GetNameForResource := by
      rcases hk with hk | hk <;> rw [hk] <;> rfl
    simp only [Option.map_some', Option.some_bind, hfr]
    rw [hc2, e1, e2, e3]
    rfl
  refine ⟨base f (Or.inl rfl), base g ?_⟩
  rw [hg]
  split
  · exact Or.inl rfl
  · exact Or.inr rfl

/-- Witness for C1 on the live object, with helpers that keep a non-empty port list and
overwrite the probe timings and handler. -/
theorem mutate_idempotent_witness :
    ∃ out g, syncStatefulSet.mutate samplePkg sampleOrcFactory sampleLive = some (out, g) ∧
      (syncStatefulSet.mutate samplePkg sampleOrcFactory out).map Prod.fst = some out ∧
      (syncStatefulSet.mutate samplePkg g out).map Prod.fst = some out :=
  ⟨_, _, rfl, mutate_idempotent samplePkg sampleOrcFactory _ sampleLive _
    (fun base port => by cases base <;> rfl)
    (fun base ids ts ps handler => rfl) rfl⟩

/-! ## Config-hash propagation -/

theorem StrMap.set_set_same (m : StrMap) (k v w : String) :
    StrMap.set (StrMap.set m k v) k w = StrMap.set m k w := by
  induction m with
  | nil => simp [StrMap.set]
  | cons p t ih =>
    obtain ⟨k', v'⟩ := p
    by_cases h : k' = k
    · simp [StrMap.set, h]
    · simp [StrMap.set, h, ih]

/-- Writes under two different keys commute when the first key is already bound. -/
theorem StrMap.set_set_comm (m : StrMap) (a b x y : String) (hab : a ≠ b)
    (ha : StrMap.get m a ≠ none) :
    StrMap.set (StrMap.set m b y) a x = StrMap.set (StrMap.set m a x) b y := by
  induction m with
  | nil => simp [StrMap.get] at ha
  | cons p t ih =>
    obtain ⟨k, v⟩ := p
    by_cases h1 : k = a
    · subst h1
      simp [StrMap.set, hab]
    · by_cases h2 : k = b
      · subst h2
        simp [StrMap.set, h1]
      · simp [StrMap.get, h1] at ha
        simp [StrMap.set, h1, h2, ih ha]

/-- Changing the config hash of the factory rewrites the binding of "config_hash" in the
annotation map of the template and nothing else. -/
theorem annotations_configHash (P : Pkg) (f : cFactory) (h2 : String) :
    ensureTemplate.annotations P { f with configHash := h2 }
      = StrMap.set (ensureTemplate.annotations P f) "config_hash" h2 := by
  unfold ensureTemplate.annotations
  simp only []
  generalize (if f.cluster.Spec.PodSpec.Annotations.length = 0 then ([] : StrMap)
    else f.cluster.Spec.PodSpec.Annotations) = base
  rw [StrMap.set_set_comm _ "config_hash" "prometheus.io/port" _ _ (by decide)
      (by rw [StrMap.get_set_other _ _ _ _ (by decide), StrMap.get_set_same]; simp),
    StrMap.set_set_comm _ "config_hash" "prometheus.io/scrape" _ _ (by decide)
      (by rw [StrMap.get_set_same]; simp),
    StrMap.set_set_same]

/-- C11: for two factories that differ in their configHash only, the object synthesized
with the second one is the object synthesized with the first one with the binding of
the "config_hash" pod-template annotation rewritten to the second hash; that binding is
the respective hash in each, every other annotation is bound alike, and the two objects
are equal exactly when the two hashes are. -/
theorem mutate_config_hash (P : Pkg) (f g : cFactory) (inp out : StatefulSet) (h2 : String)
    (h : syncStatefulSet.mutate P f inp = some (out, g)) :
    ∃ out2,
      (syncStatefulSet.mutate P { f with configHash := h2 } inp).map Prod.fst = some out2 ∧
      out2 = { out with Spec := { out.Spec with Template := { out.Spec.Template with
        ObjectMeta := { out.Spec.Template.ObjectMeta with
          Annotations :=
            StrMap.set out.Spec.Template.ObjectMeta.Annotations "config_hash" h2 } } } } ∧
      StrMap.get out.Spec.Template.ObjectMeta.Annotations "config_hash"
        = some f.configHash ∧
      StrMap.get out2.Spec.Template.ObjectMeta.Annotations "config_hash" = some h2 ∧
      (∀ k, k ≠ "config_hash" →
        StrMap.get out2.Spec.Template.ObjectMeta.Annotations k
          = StrMap.get out.Spec.Template.ObjectMeta.Annotations k) ∧
      (out2 = out ↔ h2 = f.configHash) := by
  obtain ⟨tpl, claims, ht, hc, hout⟩ := mutate_result P f inp out g h
  obtain ⟨ic, cs, vs, hic, hcs, hvs, htpl, -⟩ := ensureTemplate_result P _ _ _ _ ht
  have hann : out.Spec.Template.ObjectMeta.Annotations = ensureTemplate.annotations P f := by
    rw [hout, htpl]
    rfl
  have h1 : StrMap.get (ensureTemplate.annotations P f) "config_hash" = some f.configHash :=
    annotations_config_hash P f
  refine ⟨_, ?_, rfl, ?_, ?_, ?_, ?_, ?_⟩
  · rw [mutate_fst, ensureTemplate_eq_some P { f with configHash := h2 } _ ic cs vs
      hic hcs hvs]
    have hc2 : ensureVolumeClaimTemplates { f with configHash := h2 }
        inp.Spec.VolumeClaimTemplates = some claims := hc
    rw [hc2, annotations_configHash, hann, hout, htpl]
    rfl
  · rw [hann, h1]
  · exact StrMap.get_set_same _ _ _
  · exact fun k hk => StrMap.get_set_other _ _ _ _ (Ne.symm hk)
  · intro e
    have e2 := congrArg
      (fun o : StatefulSet => StrMap.get o.Spec.Template.ObjectMeta.Annotations "config_hash") e
    have e3 : StrMap.get (StrMap.set out.Spec.Template.ObjectMeta.Annotations
        "config_hash" h2) "config_hash"
          = StrMap.get out.Spec.Template.ObjectMeta.Annotations "config_hash" := e2
    rw [StrMap.get_set_same, hann, h1] at e3
    exact Option.some.inj e3
  · intro e
    have e4 : StrMap.set out.Spec.Template.ObjectMeta.Annotations "config_hash" h2
        = out.Spec.Template.ObjectMeta.Annotations := by
      rw [hann, e]
      exact StrMap.set_of_get _ _ _ h1
    rw [e4]

/-- Witness for C11: the live object synthesized with the hashes "abc123" and "def456". -/
theorem mutate_config_hash_witness :
    ∃ out g out2, syncStatefulSet.mutate samplePkg sampleFactory sampleLive = some (out, g) ∧
      (syncStatefulSet.mutate samplePkg { sampleFactory with configHash := "def456" }
        sampleLive).map Prod.fst = some out2 ∧
      StrMap.get out.Spec.Template.ObjectMeta.Annotations "config_hash" = some "abc123" ∧
      StrMap.get out2.Spec.Template.ObjectMeta.Annotations "config_hash" = some "def456" ∧
      (out2 = out ↔ "def456" = "abc123") := by
  obtain ⟨out2, h1, -, h3, h4, -, h6⟩ :=
    mutate_config_hash samplePkg sampleFactory _ sampleLive _ "def456" rfl
  exact ⟨_, _, out2, rfl, h1, h3, h4, h6⟩

/-! ## The ports of the exporter container -/

/-- The three run containers, with the port lists of the main container and of the
exporter: the exporter's list is built on the main container's list. -/
theorem ensureContainersSpec_ports (P : Pkg) (f : cFactory) (a b c : Container) :
    ∃ m h e, ensureContainersSpec P f [a, b, c] = some [m, h, e] ∧
      m.Ports = P.ensureContainerPorts a.Ports
        { Name := P.MysqlPortName, ContainerPort := P.MysqlPort } ∧
      e.Ports = P.ensureContainerPorts m.Ports
        { Name := P.ExporterPortName, ContainerPort := P.ExporterPort } :=
  ⟨_, _, _, rfl, rfl, rfl⟩

/-- C12 (the code on a fresh object): whenever `ensureContainerPorts` puts the given
port into an empty base and keeps the entries of a non-empty base, the exporter
container built from the empty prior list declares the MySQL port. -/
theorem exporter_declares_mysql_port (P : Pkg) (f : cFactory)
    (hfresh : ∀ port, port ∈ P.ensureContainerPorts [] port)
    (hkeep : ∀ base port q, q ∈ base → q ∈ P.ensureContainerPorts base port) :
    ∃ m h e, ensureContainersSpec P f [] = some [m, h, e] ∧
      ({ Name := P.MysqlPortName, ContainerPort := P.MysqlPort } : ContainerPort)
        ∈ e.Ports := by
  obtain ⟨m, h, e, hrun, hm, he⟩ := ensureContainersSpec_ports P f {} {} {}
  have h0 : ensureContainersSpec P f [] = ensureContainersSpec P f [{}, {}, {}] := by
    simp [ensureContainersSpec, makeSlice, List.replicate]
  refine ⟨m, h, e, h0.trans hrun, ?_⟩
  rw [he]
  apply hkeep
  rw [hm]
  exact hfresh _

/-- Witness for C12: with the helper that keeps a non-empty base, the exporter built
from the empty prior list has the MySQL port 3306 as its only port. -/
theorem exporter_declares_mysql_port_witness :
    (∃ m h e, ensureContainersSpec samplePkg sampleFactory [] = some [m, h, e] ∧
      ({ Name := "mysql", ContainerPort := 3306 } : ContainerPort) ∈ e.Ports) ∧
    (ensureContainersSpec samplePkg sampleFactory []).map (List.map Container.Ports)
      = some [[{ Name := "mysql", ContainerPort := 3306 }],
              [{ Name := "xtrabackup", ContainerPort := 3307 }],
              [{ Name := "mysql", ContainerPort := 3306 }]] :=
  ⟨exporter_declares_mysql_port samplePkg sampleFactory
      (fun port => List.mem_singleton.mpr rfl)
      (fun base port q hq => by
        cases base with
        | nil => cases hq
        | cons x t => exact hq),
    by decide⟩

/-- C19: the exporter's ports are `ensureContainerPorts` applied to the resulting ports
of the main container and the exporter port, so two prior lists of length 3 that differ
only in the ports of the container at index 2 give the same exporter ports. -/
theorem exporter_ports_from_main (P : Pkg) (f : cFactory) :
    (∀ inp, ∃ m h e, ensureContainersSpec P f inp = some [m, h, e] ∧
      e.Ports = P.ensureContainerPorts m.Ports
        { Name := P.ExporterPortName, ContainerPort := P.ExporterPort }) ∧
    (∀ a b c ports, ∃ m h e m2 h2 e2,
      ensureContainersSpec P f [a, b, c] = some [m, h, e] ∧
      ensureContainersSpec P f [a, b, { c with Ports := ports }] = some [m2, h2, e2] ∧
      e2.Ports = e.Ports) := by
  constructor
  · intro inp
    obtain ⟨a, b, c, e⟩ := ensureContainersSpec_three P f inp
    obtain ⟨m, h, x, hrun, -, hx⟩ := ensureContainersSpec_ports P f a b c
    exact ⟨m, h, x, e.trans hrun, hx⟩
  · intro a b c ports
    obtain ⟨m, h, e, hrun, hm, he⟩ := ensureContainersSpec_ports P f a b c
    obtain ⟨m2, h2, e2, hrun2, hm2, he2⟩ :=
      ensureContainersSpec_ports P f a b { c with Ports := ports }
    exact ⟨m, h, e, m2, h2, e2, hrun, hrun2, by rw [he2, he, hm2, hm]⟩

/-! ## Environment sources -/

/-- C13: the environment sources of the clone init container are the unprefixed
credentials secret reference alone when the init-bucket secret name is empty, and that
reference followed by an unprefixed reference to the init-bucket secret when it is not;
its volume mounts are conf at /etc/mysql and data at /var/lib/mysql in both cases; and
these are the sources and mounts of the container which `ensureInitContainersSpec`
returns at index 1. -/
theorem clone_env_sources (P : Pkg) (f : cFactory) :
    (f.cluster.Spec.InitBucketSecretName = "" →
      getEnvSourcesFor f "clone-mysql" =
        [{ Prefix := ""
           SecretRef := some { Name := f.cluster.GetNameForResource ResourceName.EnvSecret } }]) ∧
    (f.cluster.Spec.InitBucketSecretName ≠ "" →
      getEnvSourcesFor f "clone-mysql" =
        [{ Prefix := ""
           SecretRef := some { Name := f.cluster.GetNameForResource ResourceName.EnvSecret } },
         { Prefix := "", SecretRef := some { Name := f.cluster.Spec.InitBucketSecretName } }]) ∧
    getVolumeMountsFor P f "clone-mysql" =
      [{ Name := "conf", MountPath := "/etc/mysql" },
       { Name := "data", MountPath := "/var/lib/mysql" }] ∧
    (∀ inp out, ensureInitContainersSpec P f inp = some out →
      ∃ c, out.get? 1 = some c ∧ c.Name = "clone-mysql" ∧
        c.EnvFrom = getEnvSourcesFor f "clone-mysql" ∧
        c.VolumeMounts = getVolumeMountsFor P f "clone-mysql") := by
  refine ⟨?_, ?_, ?_, ?_⟩
  · intro h
    simp [getEnvSourcesFor, containerHelperName, containerCloneName, h, strLen_eq_zero_iff,
      envFromSecret]
  · intro h
    simp [getEnvSourcesFor, containerHelperName, containerCloneName, h, strLen_eq_zero_iff,
      envFromSecret]
  · simp [getVolumeMountsFor, containerInitName, containerCloneName, confVolumeName,
      dataVolumeName, ConfVolumeMountPath, DataVolumeMountPath]
  · intro inp out h
    match inp with
    | [] =>
      simp [ensureInitContainersSpec, sliceGet, sliceSet, makeSlice, List.replicate] at h
      subst h
      exact ⟨_, rfl, rfl, rfl, rfl⟩
    | [a] => simp [ensureInitContainersSpec, sliceGet, sliceSet] at h
    | a :: b :: t =>
      simp [ensureInitContainersSpec, sliceGet, sliceSet] at h
      subst h
      exact ⟨_, rfl, rfl, rfl, rfl⟩

/-- Witness for C13: the sample cluster without init-bucket secret and the one with the
secret "seed-creds". -/
theorem clone_env_sources_witness :
    getEnvSourcesFor sampleFactory "clone-mysql" =
      [{ Prefix := "", SecretRef := some { Name := "db-mysql-env" } }] ∧
    getEnvSourcesFor sampleSeedFactory "clone-mysql" =
      [{ Prefix := "", SecretRef := some { Name := "db-mysql-env" } },
       { Prefix := "", SecretRef := some { Name := "seed-creds" } }] ∧
    getVolumeMountsFor samplePkg sampleSeedFactory "clone-mysql"
      = getVolumeMountsFor samplePkg sampleFactory "clone-mysql" :=
  ⟨(clone_env_sources samplePkg sampleFactory).1 rfl,
    (clone_env_sources samplePkg sampleSeedFactory).2.1 (by decide),
    ((clone_env_sources samplePkg sampleSeedFactory).2.2.1).trans
      ((clone_env_sources samplePkg sampleFactory).2.2.1).symm⟩

/-- C14: for every container name the first environment source is the unprefixed
reference to the credentials env secret of the cluster; a source with prefix "MYSQL_"
is present exactly for the name "mysql", where the sources are that first reference
followed by the prefixed reference to the secret named by SecretName. -/
theorem env_sources_by_name (f : cFactory) (name : String) :
    (getEnvSourcesFor f name).head? = some
      { Prefix := ""
        SecretRef := some { Name := f.cluster.GetNameForResource ResourceName.EnvSecret } } ∧
    ((∃ s ∈ getEnvSourcesFor f name, s.Prefix = "MYSQL_") ↔ name = "mysql") ∧
    (name = "mysql" →
      getEnvSourcesFor f name =
        [{ Prefix := ""
           SecretRef := some { Name := f.cluster.GetNameForResource ResourceName.EnvSecret } },
         { Prefix := "MYSQL_", SecretRef := some { Name := f.cluster.Spec.SecretName } }]) := by
  refine ⟨?_, ?_, ?_⟩
  · unfold getEnvSourcesFor
    simp only []
    split_ifs <;> rfl
  · unfold getEnvSourcesFor
    simp only [containerHelperName, containerCloneName, containerMysqlName,
      containerExporterName]
    split_ifs with h1 h2 h3 h4 h5 <;> simp_all [envFromSecret] <;> decide
  · intro h
    subst h
    simp [getEnvSourcesFor, containerHelperName, containerCloneName, containerMysqlName,
      envFromSecret]

/-- Witness for C14 at the main container of the sample cluster. -/
theorem env_sources_by_name_witness :
    getEnvSourcesFor sampleFactory "mysql" =
      [{ Prefix := "", SecretRef := some { Name := "db-mysql-env" } },
       { Prefix := "MYSQL_", SecretRef := some { Name := "db-creds" } }] :=
  (env_sources_by_name sampleFactory "mysql").2.2 rfl

/-! ## Volume-claim templates -/

/-- C15: `ensureVolumeClaimTemplates` returns a non-empty list whose first entry is
named "data" and has the PersistentVolumeClaimSpec of the cluster spec; for an empty
prior list the result has exactly that entry, otherwise it has the length of the prior
list and the prior entries after the first. -/
theorem ensureVolumeClaimTemplates_first (f : cFactory) (inp : List PersistentVolumeClaim) :
    ∃ d rest, ensureVolumeClaimTemplates f inp = some (d :: rest) ∧
      d.ObjectMeta.Name = "data" ∧
      d.Spec = f.cluster.Spec.VolumeSpec.PersistentVolumeClaimSpec ∧
      (inp = [] → rest = []) ∧
      (inp ≠ [] → (d :: rest).length = inp.length ∧ rest = inp.tail) := by
  cases inp with
  | nil => exact ⟨_, _, rfl, rfl, rfl, fun _ => rfl, fun h => absurd rfl h⟩
  | cons a t =>
    refine ⟨{ a with
        ObjectMeta := { a.ObjectMeta with Name := dataVolumeName }
        Spec := f.cluster.Spec.VolumeSpec.PersistentVolumeClaimSpec }, t, ?_, rfl, rfl,
      fun h => (by cases h), fun _ => ⟨rfl, rfl⟩⟩
    simp [ensureVolumeClaimTemplates, sliceGet, sliceSet]

/-- C16 as stated fails: the first entry of the result does not keep the bound-volume
name of the prior entry. -/
theorem ensureVolumeClaimTemplates_drops_volume_name :
    ¬ (∀ (f : cFactory) (a : PersistentVolumeClaim) (t : List PersistentVolumeClaim),
        ∃ d rest, ensureVolumeClaimTemplates f (a :: t) = some (d :: rest) ∧
          d.Spec.VolumeName = a.Spec.VolumeName ∧
          d.Status = a.Status ∧
          d.ObjectMeta = { a.ObjectMeta with Name := d.ObjectMeta.Name }) := by
  intro hall
  obtain ⟨d, rest, h, hv, -, -⟩ := hall sampleFactory sampleBoundClaim []
  have e : ensureVolumeClaimTemplates sampleFactory [sampleBoundClaim]
      = some [{ sampleBoundClaim with Spec := {} }] := rfl
  rw [e] at h
  have hd := (List.cons.inj (Option.some.inj h)).1
  rw [← hd] at hv
  revert hv
  decide

/-- C16 amended: for a non-empty prior list the first entry of the result keeps the
status of the prior first entry and its metadata other than the name; its Spec, the
bound-volume name included, is the PersistentVolumeClaimSpec of the cluster spec; the
entries after the first are unchanged. -/
theorem ensureVolumeClaimTemplates_keeps_status_and_meta (f : cFactory)
    (a : PersistentVolumeClaim) (t : List PersistentVolumeClaim) :
    ∃ d, ensureVolumeClaimTemplates f (a :: t) = some (d :: t) ∧
      d.Status = a.Status ∧
      d.ObjectMeta = { a.ObjectMeta with Name := "data" } ∧
      d.Spec = f.cluster.Spec.VolumeSpec.PersistentVolumeClaimSpec ∧
      d.Spec.VolumeName = f.cluster.Spec.VolumeSpec.PersistentVolumeClaimSpec.VolumeName := by
  refine ⟨{ a with
      ObjectMeta := { a.ObjectMeta with Name := dataVolumeName }
      Spec := f.cluster.Spec.VolumeSpec.PersistentVolumeClaimSpec }, ?_, rfl, rfl, rfl, rfl⟩
  simp [ensureVolumeClaimTemplates, sliceGet, sliceSet]

/-! ## The cluster spec after `ensureTemplate` -/

/-- The cluster spec held by the factory after `ensureTemplate`: untouched when its pod
annotations are empty, and otherwise with the pod annotations replaced by the annotation
map of the returned template. -/
theorem ensureTemplate_cluster_spec (P : Pkg) (f : cFactory) (inp out : PodTemplateSpec)
    (g : cFactory) (h : ensureTemplate P f inp = some (out, g)) :
    (f.cluster.Spec.PodSpec.Annotations = [] → g.cluster.Spec = f.cluster.Spec) ∧
    (f.cluster.Spec.PodSpec.Annotations ≠ [] →
      g.cluster.Spec = { f.cluster.Spec with PodSpec := { f.cluster.Spec.PodSpec with
        Annotations := out.ObjectMeta.Annotations } }) := by
  obtain ⟨ic, cs, vs, -, -, -, rfl, rfl⟩ := ensureTemplate_result P f inp out g h
  constructor
  · intro he
    simp [he]
  · intro he
    have : f.cluster.Spec.PodSpec.Annotations.length ≠ 0 :=
      fun h0 => he (List.length_eq_zero.mp h0)
    simp only [this, if_false]
    rfl

/-- C17 (the code at a failing input): with the pod annotation team=db in the cluster
spec, the cluster spec held by the factory after `ensureTemplate` differs from the one
before; its pod annotations have gained the three managed keys. -/
theorem ensureTemplate_writes_cluster_annotations :
    ∃ out g, ensureTemplate samplePkg sampleOrcFactory {} = some (out, g) ∧
      sampleOrcFactory.cluster.Spec.PodSpec.Annotations = [("team", "db")] ∧
      g.cluster.Spec.PodSpec.Annotations =
        [("team", "db"), ("config_hash", "abc123"), ("prometheus.io/scrape", "true"),
         ("prometheus.io/port", "9104")] ∧
      g.cluster.Spec ≠ sampleOrcFactory.cluster.Spec :=
  ⟨_, _, rfl, rfl, by decide, by decide⟩

/-! ## Totality -/

theorem ensureInitContainersSpec_some_iff (P : Pkg) (f : cFactory) (inp : List Container) :
    (∃ out, ensureInitContainersSpec P f inp = some out) ↔ inp.length ≠ 1 := by
  match inp with
  | [] => simp [ensureInitContainersSpec, sliceGet, sliceSet, makeSlice, List.replicate]
  | [a] => simp [ensureInitContainersSpec, sliceGet, sliceSet]
  | a :: b :: t => simp [ensureInitContainersSpec, sliceGet, sliceSet]

theorem ensureVolumes_total (f : cFactory) (inp : List Volume) :
    ∃ out, ensureVolumes f inp = some out := by
  by_cases hf : f.cluster.Spec.GetOrcTopologySecret = ""
  · obtain ⟨o, h, -⟩ := ensureVolumes_without_secret f inp hf
    exact ⟨o, h⟩
  · obtain ⟨o, h, -⟩ := ensureVolumes_with_secret f inp hf
    exact ⟨o, h⟩

/-- The template builder returns exactly when the prior init-container list does not
have length 1. -/
theorem ensureTemplate_some_iff (P : Pkg) (f : cFactory) (inp : PodTemplateSpec) :
    (∃ r, ensureTemplate P f inp = some r) ↔ inp.Spec.InitContainers.length ≠ 1 := by
  constructor
  · rintro ⟨⟨out, g⟩, h⟩
    obtain ⟨ic, -, -, hic, -, -⟩ := ensureTemplate_some_inv P f inp out g h
    exact (ensureInitContainersSpec_some_iff P f _).mp ⟨ic, hic⟩
  · intro hl
    obtain ⟨ic, hic⟩ := (ensureInitContainersSpec_some_iff P f _).mpr hl
    obtain ⟨cs, hcs⟩ := ensureContainersSpec_total P f inp.Spec.Containers
    obtain ⟨vs, hvs⟩ := ensureVolumes_total f inp.Spec.Volumes
    exact ⟨_, ensureTemplate_eq_some P f inp ic cs vs hic hcs hvs⟩

/-- C18 (the code at a failing input): on an existing pod template with exactly one
init container `ensureTemplate` does not return, the write to index 1 in
`ensureInitContainersSpec` being out of range. -/
theorem ensureTemplate_one_init_container :
    ensureInitContainersSpec samplePkg sampleFactory [{ Name := "init-mysql" }] = none ∧
    (ensureTemplate samplePkg sampleFactory
      { Spec := { InitContainers := [{ Name := "init-mysql" }] } }).isSome = false :=
  ⟨by decide, rfl⟩

/-! ## Volume mounts and volumes -/

theorem ensureInitContainersSpec_mounts (P : Pkg) (f : cFactory) (inp out : List Container)
    (h : ensureInitContainersSpec P f inp = some out) :
    ∃ i0 i1 rest, out = i0 :: i1 :: rest ∧
      i0.Name = "init-mysql" ∧ i1.Name = "clone-mysql" ∧
      i0.VolumeMounts = getVolumeMountsFor P f "init-mysql" ∧
      i1.VolumeMounts = getVolumeMountsFor P f "clone-mysql" := by
  match inp with
  | [] =>
    simp [ensureInitContainersSpec, sliceGet, sliceSet, makeSlice, List.replicate] at h
    subst h
    exact ⟨_, _, _, rfl, rfl, rfl, rfl, rfl⟩
  | [a] => simp [ensureInitContainersSpec, sliceGet, sliceSet] at h
  | a :: b :: t =>
    simp [ensureInitContainersSpec, sliceGet, sliceSet] at h
    subst h
    exact ⟨_, _, _, rfl, rfl, rfl, rfl, rfl⟩

theorem ensureContainersSpec_mounts (P : Pkg) (f : cFactory) (inp out : List Container)
    (h : ensureContainersSpec P f inp = some out) :
    ∃ m hp e, out = [m, hp, e] ∧
      m.Name = "mysql" ∧ hp.Name = "helper" ∧ e.Name = "metrics-exporter" ∧
      m.VolumeMounts = getVolumeMountsFor P f "mysql" ∧
      hp.VolumeMounts = getVolumeMountsFor P f "helper" ∧
      e.VolumeMounts = getVolumeMountsFor P f "metrics-exporter" := by
  obtain ⟨a, b, c, e⟩ := ensureContainersSpec_three P f inp
  rw [e] at h
  have h2 : ensureContainersSpec P f [a, b, c] = some [_, _, _] := rfl
  rw [h2] at h
  exact ⟨_, _, _, (Option.some.inj h).symm, rfl, rfl, rfl, rfl, rfl, rfl⟩

/-- C20: whenever `ensureTemplate` returns, every volume mount of the two init
containers and of the three run containers names a volume of the returned volume list;
the helper container mounts "orc-topology-secret" exactly when the orchestrator-topology
secret name is non-empty, which is exactly when that volume is in the list; and no other
of the five containers mounts it. -/
theorem mounts_name_volumes (P : Pkg) (f : cFactory) (inp out : PodTemplateSpec)
    (g : cFactory) (h : ensureTemplate P f inp = some (out, g)) :
    ∃ i0 i1 rest m hp e,
      out.Spec.InitContainers = i0 :: i1 :: rest ∧ out.Spec.Containers = [m, hp, e] ∧
      i0.Name = "init-mysql" ∧ i1.Name = "clone-mysql" ∧
      m.Name = "mysql" ∧ hp.Name = "helper" ∧ e.Name = "metrics-exporter" ∧
      (∀ c ∈ [i0, i1, m, hp, e], ∀ vm ∈ c.VolumeMounts,
        vm.Name ∈ out.Spec.Volumes.map Volume.Name) ∧
      ((∃ vm ∈ hp.VolumeMounts, vm.Name = "orc-topology-secret")
        ↔ f.cluster.Spec.GetOrcTopologySecret ≠ "") ∧
      ("orc-topology-secret" ∈ out.Spec.Volumes.map Volume.Name
        ↔ f.cluster.Spec.GetOrcTopologySecret ≠ "") ∧
      (∀ c ∈ [i0, i1, m, e], ∀ vm ∈ c.VolumeMounts, vm.Name ≠ "orc-topology-secret") := by
  obtain ⟨ic, cs, vs, hic, hcs, hvs, rfl, -⟩ := ensureTemplate_result P f inp out g h
  obtain ⟨i0, i1, rest, rfl, n0, n1, v0, v1⟩ := ensureInitContainersSpec_mounts P f _ _ hic
  obtain ⟨m, hp, e, rfl, nm, nh, ne, vm, vh, ve⟩ := ensureContainersSpec_mounts P f _ _ hcs
  refine ⟨i0, i1, rest, m, hp, e, rfl, rfl, n0, n1, nm, nh, ne, ?_⟩
  by_cases hf : f.cluster.Spec.GetOrcTopologySecret = ""
  · obtain ⟨o, ho, hn⟩ := ensureVolumes_without_secret f _ hf
    rw [hvs] at ho
    cases Option.some.inj ho
    simp only [hn]
    simp [v0, v1, vm, vh, ve, getVolumeMountsFor, hf, strLen_eq_zero_iff, containerInitName,
      containerCloneName, containerMysqlName, containerHelperName, confVolumeName,
      confMapVolumeName, dataVolumeName]
  · obtain ⟨o, ho, hn, -⟩ := ensureVolumes_with_secret f _ hf
    rw [hvs] at ho
    cases Option.some.inj ho
    simp only [hn]
    simp [v0, v1, vm, vh, ve, getVolumeMountsFor, hf, strLen_eq_zero_iff, containerInitName,
      containerCloneName, containerMysqlName, containerHelperName, confVolumeName,
      confMapVolumeName, dataVolumeName]

/-- Witness for C20: the sample cluster with a topology secret, on an empty template. -/
theorem mounts_name_volumes_witness :
    ∃ out g i0 i1 rest m hp e,
      ensureTemplate samplePkg sampleOrcFactory {} = some (out, g) ∧
      out.Spec.InitContainers = i0 :: i1 :: rest ∧ out.Spec.Containers = [m, hp, e] ∧
      (∀ c ∈ [i0, i1, m, hp, e], ∀ vm ∈ c.VolumeMounts,
        vm.Name ∈ out.Spec.Volumes.map Volume.Name) ∧
      (∃ vm ∈ hp.VolumeMounts, vm.Name = "orc-topology-secret") ∧
      "orc-topology-secret" ∈ out.Spec.Volumes.map Volume.Name := by
  obtain ⟨i0, i1, rest, m, hp, e, h1, h2, -, -, -, -, -, h3, h4, h5, -⟩ :=
    mounts_name_volumes samplePkg sampleOrcFactory {} _ _ rfl
  exact ⟨_, _, i0, i1, rest, m, hp, e, rfl, h1, h2, h3, h4.mpr (by decide),
    h5.mpr (by decide)⟩
